import Mathlib

/-!
Verification of the IAM immune-system detection-and-remediation pipeline.

Shallow embedding of the Python sources under `functions/iam_monitor/`:
scores are rationals, Python dicts of risk factors are association lists in
insertion order, fallible paths are explicit, and every AWS / webhook side
effect is recorded in an explicit effect list instead of being performed.
-/

namespace IamImmune

/-- `Severity` enum from `detectors/__init__.py`. -/
inductive Severity where
  | low
  | medium
  | high
  | critical
deriving DecidableEq, Repr

/-- Numeric rank of a severity tier (LOW < MEDIUM < HIGH < CRITICAL). -/
def Severity.rank : Severity → Nat
  | .low => 0
  | .medium => 1
  | .high => 2
  | .critical => 3

/-- A risk-factor map: named factor scores in insertion order, embedding the
Python `Dict[str, float]` built by each detector (keys are distinct in a
Python dict; list entries here are the dict items in insertion order). -/
abbrev Factors := List (String × ℚ)

/-- Python builtin `min` on two rationals (kernel-reducible). -/
def pymin (a b : ℚ) : ℚ := if a ≤ b then a else b

theorem pymin_eq_min (a b : ℚ) : pymin a b = min a b := by
  simp [pymin, min_def]

/-- Python builtin `max` on two rationals (kernel-reducible). -/
def pymax (a b : ℚ) : ℚ := if b ≤ a then a else b

theorem pymax_eq_max (a b : ℚ) : pymax a b = max a b := by
  simp only [pymax, max_def]
  split_ifs with h1 h2 h2 <;> first | rfl | linarith

theorem le_pymax_right (a b : ℚ) : b ≤ pymax a b := by
  rw [pymax_eq_max]; exact le_max_right a b

theorem pymax_le (a b c : ℚ) (ha : a ≤ c) (hb : b ≤ c) : pymax a b ≤ c := by
  rw [pymax_eq_max]; exact max_le ha hb

/-- `BaseDetector._calculate_risk_score` (detectors/__init__.py lines 58-76):
empty map returns `0.0`; otherwise each key gets weight `1.0`, and the result
is `min(100.0, weighted_sum / total_weight)`. -/
def calculateRiskScore (factors : Factors) : ℚ :=
  if factors.isEmpty then 0
  else
    let weights : List (String × ℚ) := factors.map (fun p => (p.1, 1))
    let totalWeight : ℚ := (weights.map Prod.snd).sum
    let weightedSum : ℚ := (factors.map (fun p => p.2 * 1)).sum
    pymin 100 (weightedSum / totalWeight)

/-- `BaseDetector._determine_severity` (detectors/__init__.py lines 78-95). -/
def determineSeverity (riskScore : ℚ) : Severity :=
  if riskScore ≥ 80 then .critical
  else if riskScore ≥ 60 then .high
  else if riskScore ≥ 40 then .medium
  else .low

/-- Sum of the factor values. -/
def factorSum (factors : Factors) : ℚ := (factors.map Prod.snd).sum

theorem weights_sum_eq_length (factors : Factors) :
    ((factors.map (fun p : String × ℚ => (p.1, (1 : ℚ)))).map Prod.snd).sum =
      (factors.length : ℚ) := by
  induction factors with
  | nil => simp
  | cons a l ih =>
      simp [List.map_map] at ih ⊢
      rw [ih]
      ring

theorem weighted_sum_eq_sum (factors : Factors) :
    (factors.map (fun p : String × ℚ => p.2 * 1)).sum = factorSum factors := by
  induction factors with
  | nil => simp [factorSum]
  | cons a l ih => simp [factorSum] at ih ⊢

theorem calculateRiskScore_eq_min_mean (factors : Factors) (h : factors ≠ []) :
    calculateRiskScore factors =
      min 100 (factorSum factors / (factors.length : ℚ)) := by
  simp only [calculateRiskScore]
  rw [if_neg (by simpa using h)]
  rw [weights_sum_eq_length, weighted_sum_eq_sum, pymin_eq_min]

theorem factorSum_le_mul_length (l : Factors) (B : ℚ) (h : ∀ p ∈ l, p.2 ≤ B) :
    factorSum l ≤ B * (l.length : ℚ) := by
  unfold factorSum
  induction l with
  | nil => simp
  | cons a l ih =>
      simp only [List.map_cons, List.sum_cons, List.length_cons]
      have ha : a.2 ≤ B := h a (by simp)
      have hl := ih (fun p hp => h p (by simp [hp]))
      push_cast
      nlinarith

/-- If every factor value is at most `B ≥ 0`, the fused score is at most `B`.
Used for the cross-account risk bound. -/
theorem calculateRiskScore_le_of_forall_le (factors : Factors) (B : ℚ)
    (hB : 0 ≤ B) (h : ∀ p ∈ factors, p.2 ≤ B) :
    calculateRiskScore factors ≤ B := by
  simp only [calculateRiskScore]
  split
  · exact hB
  · rename_i hne
    rw [weights_sum_eq_length, weighted_sum_eq_sum, pymin_eq_min]
    refine le_trans (min_le_right _ _) ?_
    have hlen : 0 < (factors.length : ℚ) := by
      have : factors ≠ [] := by simpa using hne
      have := List.length_pos.mpr this
      exact_mod_cast this
    rw [div_le_iff₀ hlen]
    exact factorSum_le_mul_length factors B h

/-- The fused score never exceeds 100 and is nonnegative when the factors are. -/
theorem calculateRiskScore_le_100 (factors : Factors) :
    calculateRiskScore factors ≤ 100 := by
  simp only [calculateRiskScore]
  split
  · norm_num
  · rw [pymin_eq_min]
    exact min_le_left _ _

/-- Fused score of a single factor below the cap. -/
theorem calculateRiskScore_singleton (k : String) (v : ℚ) (hv : v ≤ 100) :
    calculateRiskScore [(k, v)] = v := by
  have h := calculateRiskScore_eq_min_mean [(k, v)] (by simp)
  simp [factorSum] at h
  rw [h]
  exact min_eq_right hv

/-- C1: for every risk-factor map, the fused score returned by
`_calculate_risk_score` is `min(100, mean of the factor values)`, and the
empty map yields exactly `0`. -/
theorem riskFusion_spec (factors : Factors) :
    (factors = [] → calculateRiskScore factors = 0) ∧
    (factors ≠ [] →
      calculateRiskScore factors =
        min 100 (factorSum factors / (factors.length : ℚ))) := by
  constructor
  · intro h
    simp [calculateRiskScore, h]
  · intro h
    exact calculateRiskScore_eq_min_mean factors h

/-- Witness for `riskFusion_spec` at concrete inputs: the empty map scores 0,
and the two-factor map scores the capped mean. -/
theorem riskFusion_spec_witness :
    calculateRiskScore [] = 0 ∧
    calculateRiskScore [("a", 90), ("b", 30)] = 60 := by
  refine ⟨(riskFusion_spec []).1 rfl, ?_⟩
  rw [(riskFusion_spec [("a", 90), ("b", 30)]).2 (by simp)]
  norm_num [factorSum]

/-- C2: `_determine_severity` is total and deterministic: scores at least 80
map to CRITICAL, scores in `[60,80)` to HIGH, scores in `[40,60)` to MEDIUM,
all other scores to LOW, and the function is monotone in the score. -/
theorem severity_spec (s t : ℚ) :
    (80 ≤ s → determineSeverity s = .critical) ∧
    (60 ≤ s ∧ s < 80 → determineSeverity s = .high) ∧
    (40 ≤ s ∧ s < 60 → determineSeverity s = .medium) ∧
    (s < 40 → determineSeverity s = .low) ∧
    (s ≤ t → (determineSeverity s).rank ≤ (determineSeverity t).rank) := by
  refine ⟨?_, ?_, ?_, ?_, ?_⟩
  · intro h
    simp [determineSeverity, h]
  · rintro ⟨h1, h2⟩
    simp only [determineSeverity]
    rw [if_neg (by linarith), if_pos (by linarith)]
  · rintro ⟨h1, h2⟩
    simp only [determineSeverity]
    rw [if_neg (by linarith), if_neg (by linarith), if_pos (by linarith)]
  · intro h
    simp only [determineSeverity]
    rw [if_neg (by linarith), if_neg (by linarith), if_neg (by linarith)]
  · intro hst
    simp only [determineSeverity]
    split_ifs <;> simp [Severity.rank] <;> linarith

/-- Witness for `severity_spec`: each threshold branch and monotonicity,
discharged at concrete scores. -/
theorem severity_spec_witness :
    determineSeverity 85 = .critical ∧
    determineSeverity 65 = .high ∧
    determineSeverity 45 = .medium ∧
    determineSeverity 5 = .low ∧
    (determineSeverity 45).rank ≤ (determineSeverity 85).rank := by
  refine ⟨(severity_spec 85 85).1 (by norm_num),
         (severity_spec 65 65).2.1 (by norm_num),
         (severity_spec 45 45).2.2.1 (by norm_num),
         (severity_spec 5 5).2.2.2.1 (by norm_num),
         (severity_spec 45 85).2.2.2.2 (by norm_num)⟩

/-! ## Event data model

Shallow embedding of the CloudTrail event dictionaries: only the fields the
pipeline reads are modelled, each with the default the Python `dict.get`
call supplies when the key is missing. -/

/-- `listIsPre pat l`: `pat` is a leading segment of `l`. -/
def listIsPre : List Char → List Char → Bool
  | [], _ => true
  | _ :: _, [] => false
  | p :: ps, h :: t => p == h && listIsPre ps t

/-- `listSub hay pat`: `pat` occurs contiguously in `hay`. -/
def listSub : List Char → List Char → Bool
  | hay, pat =>
    match hay with
    | [] => pat.isEmpty
    | _ :: t => listIsPre pat hay || listSub t pat

/-- Python substring test `pat in hay`. -/
def containsStr (hay pat : String) : Bool :=
  listSub hay.data pat.data

/-- Fuel-driven worker for `splitStr` (fuel is the haystack length, spent one
unit per consumed character, so it never runs out). -/
def splitGo (pat : List Char) : Nat → List Char → List Char → List (List Char)
  | 0, hay, acc => [acc.reverse ++ hay]
  | fuel + 1, hay, acc =>
      match hay with
      | [] => [acc.reverse]
      | h :: t =>
          if listIsPre pat hay then
            acc.reverse :: splitGo pat fuel (hay.drop pat.length) []
          else
            splitGo pat fuel t (h :: acc)

/-- Python `s.split(pat)` for a non-empty separator `pat` (the pipeline never
splits on an empty separator). -/
def splitStr (s pat : String) : List String :=
  if pat.isEmpty then [s]
  else (splitGo pat.data s.data.length s.data []).map String.mk

/-- Python `s.startswith(pre)`. -/
def startsWithStr (s pre : String) : Bool :=
  listIsPre pre.data s.data

/-- ASCII lowering of one character (the identifiers the pipeline lowercases
are ASCII ARNs, bucket names and user agents). -/
def lowerChar (c : Char) : Char :=
  if 65 ≤ c.toNat && c.toNat ≤ 90 then Char.ofNat (c.toNat + 32) else c

/-- Python `s.lower()` on ASCII data. -/
def lowerStr (s : String) : String :=
  String.mk (s.data.map lowerChar)

/-- Python `s.count(c)` for a single character, used for the impersonation
chain depth. -/
def countChar (s : String) (c : Char) : Nat :=
  s.data.countP (fun x => x == c)

/-- Python truthiness of an optional string (`None` and `""` are falsy). -/
def truthy : Option String → Bool
  | none => false
  | some s => !(s == "")

/-- Modelled hour extraction of `datetime.fromisoformat` on an ISO-8601
string `YYYY-MM-DDTHH:MM:SS...` (after the `.replace('Z', '+00:00')` the
code applies): the two digits at positions 11-12. `none` models the parse
error the code converts to `False`. -/
def isoHour (t : String) : Option Nat :=
  match t.data.get? 11, t.data.get? 12 with
  | some c1, some c2 =>
      if c1.isDigit && c2.isDigit then
        some ((c1.toNat - 48) * 10 + (c2.toNat - 48))
      else none
  | _, _ => none

/-- `_is_off_hours`, identical in admin_grant.py, cross_account.py and
machine_identity.py: hour in `[22, 24) ∪ [0, 6)` UTC; parse failure is
`False`. -/
def isOffHours (eventTime : String) : Bool :=
  match isoHour eventTime with
  | some h => h ≥ 22 || h < 6
  | none => false

/-- The `Principal` entry of a policy statement: absent, a JSON string, or a
JSON object whose `AWS` key (when a string) is recorded. -/
inductive Principal where
  | absent
  | str (s : String)
  | dict (aws : Option String)
deriving DecidableEq, Repr

/-- `principal == '*' or principal.get('AWS') == '*'`: a non-`'*'` string
principal makes `.get` raise `AttributeError` (modelled as `.error`). -/
def principalWildcard : Principal → Except Unit Bool
  | .absent => .ok false
  | .str s => if s == "*" then .ok true else .error ()
  | .dict aws => .ok (aws == some "*")

/-- One policy statement, with `Action` / `Resource` already normalised to
lists the way every analysis function does (`if not isinstance(x, list):
x = [x]`). `hasExternalIdCondition` models `'ExternalId' in Condition`. -/
structure Statement where
  effect : String := ""
  principal : Principal := .absent
  actions : List String := []
  resources : List String := []
  hasExternalIdCondition : Bool := false
deriving DecidableEq, Repr

/-- Outcome of `json.loads` on an embedded policy document: a parsed list of
statements, or a decode error (which every caller converts to zero risk). -/
inductive PolicyInput where
  | malformed
  | doc (statements : List Statement)
deriving DecidableEq, Repr

/-- `PublicAccessBlockConfiguration` with each flag read through
`config.get(..., False)`. -/
structure PabConfig where
  blockPublicAcls : Bool := false
  blockPublicPolicy : Bool := false
  ignorePublicAcls : Bool := false
  restrictPublicBuckets : Bool := false
deriving DecidableEq, Repr

/-- One ACL grant: `Grantee.URI` and `Permission`, defaulted to `''`. -/
structure Grant where
  granteeUri : String := ""
  permission : String := ""
deriving DecidableEq, Repr

/-- `AccessControlPolicy.AccessControlList.Grant`, normalised to a list. -/
structure AclPolicy where
  grants : List Grant := []
deriving DecidableEq, Repr

/-- `requestParameters` fields read anywhere in the pipeline. -/
structure RequestParameters where
  bucketName : Option String := none
  bucketPolicy : Option PolicyInput := none
  publicAccessBlockConfiguration : Option PabConfig := none
  accessControlPolicy : Option AclPolicy := none
  policyArn : Option String := none
  policyDocument : Option PolicyInput := none
  userName : Option String := none
  roleName : Option String := none
  groupName : Option String := none
  policyName : Option String := none
  roleArn : Option String := none
  externalId : Option String := none
  policy : Option PolicyInput := none
  durationSeconds : Option Int := none
  name : Option String := none
deriving DecidableEq, Repr

/-- `userIdentity` fields read anywhere in the pipeline.
`hasSessionIssuer` models `'sessionIssuer' in sessionContext`;
`sessionIssuerUserName` models
`sessionContext.sessionIssuer.userName` defaulted to `''`. -/
structure UserIdentity where
  type : String := ""
  arn : String := ""
  principalId : String := ""
  accountId : String := ""
  hasSessionIssuer : Bool := false
  sessionIssuerUserName : String := ""
deriving DecidableEq, Repr

/-- One IAM audit event; `resources` holds the `ARN` of each entry of the
`resources` list (read through `resource.get('ARN', '')`). -/
structure Event where
  eventName : String := ""
  eventTime : String := ""
  eventSource : String := ""
  sourceIPAddress : String := ""
  userAgent : String := ""
  recipientAccountId : String := ""
  errorCode : Option String := none
  errorMessage : Option String := none
  userIdentity : UserIdentity := {}
  requestParameters : RequestParameters := {}
  resources : List String := []
deriving DecidableEq, Repr

/-- The detail keys the pipeline itself reads downstream (remediators) plus
the branch markers; purely informational echo keys (`user_identity`,
`source_ip`, `event_time`, `user_agent`, ...) are not modelled because no
code reads them back. -/
structure Details where
  reason : Option String := none
  error : Option String := none
  bucket_name : Option String := none
  event_name : Option String := none
  risk_factors : Option Factors := none
  source_account : Option String := none
  assumed_role : Option String := none
  principal : Option String := none
  request_parameters : Option RequestParameters := none
deriving DecidableEq, Repr

/-- `DetectionResult` dataclass from detectors/__init__.py. -/
structure DetectionResult where
  is_threat : Bool
  risk_score : ℚ
  severity : Severity
  details : Details
  recommended_actions : List String
  auto_remediate : Bool := false
  detector_name : Option String := none
deriving DecidableEq, Repr

/-- The zero-risk, non-threat result every detector returns on its gate,
whitelist and error paths. -/
def zeroResult (name : String) (d : Details) : DetectionResult :=
  { is_threat := false, risk_score := 0, severity := .low, details := d,
    recommended_actions := [], detector_name := some name }

/-! ## PublicBucketDetector (detectors/public_bucket.py) -/

namespace PublicBucket

/-- `self._dangerous_actions`. -/
def dangerousActions : List String :=
  ["PutBucketPolicy", "PutBucketAcl", "DeleteBucketPublicAccessBlock",
   "PutBucketPublicAccessBlock"]

/-- First resource ARN containing `arn:aws:s3:::` (the loop with `break`). -/
def firstS3Arn : List String → Option String
  | [] => none
  | arn :: rest =>
      if containsStr arn "arn:aws:s3:::" then some arn else firstS3Arn rest

/-- `_extract_bucket_name`: `requestParameters.bucketName` when truthy, else
`arn.split(':::')[1].split('/')[0]` of the first matching resource ARN. -/
def extractBucketName (e : Event) : Option String :=
  let fromParams := e.requestParameters.bucketName
  if truthy fromParams then fromParams
  else
    match firstS3Arn e.resources with
    | some arn => some (((splitStr ((splitStr arn ":::").getD 1 "") "/").getD 0 ""))
    | none => fromParams

/-- Risk update of one bucket-policy statement: wildcard principal gives 95
on `Allow` / 20 otherwise; a dangerous S3 action gives 80; a non-`'*'`
string principal raises (aborting the whole analysis). -/
def bucketStmtRisk (risk : ℚ) (st : Statement) : Except Unit ℚ := do
  let risk ←
    match principalWildcard st.principal with
    | .error _ => Except.error ()
    | .ok true =>
        pure (if st.effect == "Allow" then pymax risk 95 else pymax risk 20)
    | .ok false => pure risk
  let dangerous := ["s3:GetObject", "s3:PutObject", "s3:DeleteObject", "s3:*"]
  pure (if st.actions.any (fun a => dangerous.contains a) then pymax risk 80
        else risk)

/-- `_analyze_bucket_policy`: missing or falsy policy text gives 0, a JSON
decode error gives 0, any exception in the statement loop gives 0. -/
def analyzeBucketPolicy (e : Event) : ℚ :=
  match e.requestParameters.bucketPolicy with
  | none => 0
  | some .malformed => 0
  | some (.doc stmts) =>
      match stmts.foldlM bucketStmtRisk 0 with
      | .ok r => r
      | .error _ => 0

/-- Risk update of one ACL grant: public URI with FULL_CONTROL/WRITE gives
95, READ gives 70. -/
def aclGrantRisk (risk : ℚ) (g : Grant) : ℚ :=
  if containsStr g.granteeUri "AllUsers" ||
     containsStr g.granteeUri "AuthenticatedUsers" then
    if g.permission == "FULL_CONTROL" || g.permission == "WRITE" then
      pymax risk 95
    else if g.permission == "READ" then pymax risk 70
    else risk
  else risk

/-- `_analyze_bucket_acl`. -/
def analyzeBucketAcl (e : Event) : ℚ :=
  match e.requestParameters.accessControlPolicy with
  | none => 0
  | some acl => acl.grants.foldl aclGrantRisk 0

/-- `sensitive_keywords` of `_is_sensitive_bucket`. -/
def sensitiveKeywords : List String :=
  ["pii", "phi", "backup", "logs", "audit", "compliance",
   "customer", "user", "payment", "credential", "secret",
   "private", "internal", "prod", "production"]

/-- `_is_sensitive_bucket`. -/
def isSensitiveBucket (bucketName : String) : Bool :=
  sensitiveKeywords.any (fun kw => containsStr (lowerStr bucketName) kw)

/-- `_analyze_bucket`: the risk-factor dict in insertion order. -/
def analyzeBucket (bucketName : String) (e : Event) : Factors :=
  (if e.eventName == "DeleteBucketPublicAccessBlock" then
     [("public_access_block_removed", (90 : ℚ))] else []) ++
  (if e.eventName == "PutBucketPublicAccessBlock" then
     let cfg :=
       (e.requestParameters.publicAccessBlockConfiguration).getD {}
     if !(cfg.blockPublicAcls && cfg.blockPublicPolicy &&
          cfg.ignorePublicAcls && cfg.restrictPublicBuckets) then
       [("weak_public_access_block", (70 : ℚ))] else []
   else []) ++
  (if e.eventName == "PutBucketPolicy" then
     let r := analyzeBucketPolicy e
     if r > 0 then [("dangerous_bucket_policy", r)] else []
   else []) ++
  (if e.eventName == "PutBucketAcl" then
     let r := analyzeBucketAcl e
     if r > 0 then [("dangerous_bucket_acl", r)] else []
   else []) ++
  (if isSensitiveBucket bucketName then [("sensitive_bucket", (30 : ℚ))]
   else [])

/-- `PublicBucketDetector.detect`. The outer `except` is unreachable in the
model because every helper already converts its faults to zero risk. -/
def detect (e : Event) : DetectionResult :=
  if !(dangerousActions.contains e.eventName) then
    zeroResult "PublicBucketDetector"
      { reason := some "Not an S3 bucket access event" }
  else
    let bn := extractBucketName e
    if !truthy bn then
      zeroResult "PublicBucketDetector"
        { reason := some "Could not extract bucket name" }
    else
      let bucketName := bn.getD ""
      let riskFactors := analyzeBucket bucketName e
      let riskScore := calculateRiskScore riskFactors
      let severity := determineSeverity riskScore
      let isThreat : Bool := riskScore ≥ 40
      let recommendedActions :=
        if isThreat then
          let ra := ["block_public", "alert_team"]
          if riskScore ≥ 80 then "revoke_access" :: ra else ra
        else []
      { is_threat := isThreat, risk_score := riskScore, severity := severity,
        details :=
          { bucket_name := some bucketName, event_name := some e.eventName,
            risk_factors := some riskFactors },
        recommended_actions := recommendedActions,
        auto_remediate := riskScore ≥ 60,
        detector_name := some "PublicBucketDetector" }

end PublicBucket

/-- A `DeleteBucketPublicAccessBlock` event on a bucket whose name contains
the sensitive keyword `prod`. -/
def delBlockSensitiveEvent : Event :=
  { eventName := "DeleteBucketPublicAccessBlock",
    requestParameters := { bucketName := some "prod-data" } }

/-- A `DeleteBucketPublicAccessBlock` event carrying no bucket name. -/
def delBlockNoBucketEvent : Event :=
  { eventName := "DeleteBucketPublicAccessBlock" }

/-- C6 counterexample: for the `DeleteBucketPublicAccessBlock` event on the
sensitive-named bucket `prod-data` the detector returns risk 60 (the mean of
factor 90 and the sensitive-name factor 30), severity HIGH — not `≥ 80` and
not CRITICAL as claimed — and for a `DeleteBucketPublicAccessBlock` event
with no extractable bucket name it returns risk 0. -/
theorem c6_counterexample :
    delBlockSensitiveEvent.eventName = "DeleteBucketPublicAccessBlock" ∧
    (PublicBucket.detect delBlockSensitiveEvent).risk_score = 60 ∧
    (PublicBucket.detect delBlockSensitiveEvent).severity = Severity.high ∧
    ¬((PublicBucket.detect delBlockSensitiveEvent).risk_score ≥ 80) ∧
    delBlockNoBucketEvent.eventName = "DeleteBucketPublicAccessBlock" ∧
    (PublicBucket.detect delBlockNoBucketEvent).risk_score = 0 := by
  have h : PublicBucket.analyzeBucket "prod-data" delBlockSensitiveEvent =
      [("public_access_block_removed", 90), ("sensitive_bucket", 30)] := by
    decide
  have hbn : PublicBucket.extractBucketName delBlockSensitiveEvent =
      some "prod-data" := by decide
  have hscore : calculateRiskScore
      (PublicBucket.analyzeBucket "prod-data" delBlockSensitiveEvent) = 60 := by
    rw [h]
    simp [calculateRiskScore, pymin]
    norm_num
  have hbn2 : PublicBucket.extractBucketName delBlockNoBucketEvent = none := by
    decide
  refine ⟨rfl, ?_, ?_, ?_, rfl, ?_⟩ <;>
    simp [PublicBucket.detect, hbn, hbn2, truthy, hscore, determineSeverity,
          zeroResult] <;>
    norm_num [delBlockSensitiveEvent, delBlockNoBucketEvent,
              PublicBucket.dangerousActions]

/-- C6 amended: for every `DeleteBucketPublicAccessBlock` event from which a
non-empty bucket name is extracted and whose name contains no sensitive
keyword, the detector returns risk 90 (so `≥ 80`), severity CRITICAL,
`auto_remediate = true`, and recommended actions
`[revoke_access, block_public, alert_team]`. -/
theorem c6_amended (e : Event) (bn : String)
    (hev : e.eventName = "DeleteBucketPublicAccessBlock")
    (hbn : PublicBucket.extractBucketName e = some bn)
    (hne : bn ≠ "")
    (hsens : PublicBucket.isSensitiveBucket bn = false) :
    (PublicBucket.detect e).risk_score = 90 ∧
    (PublicBucket.detect e).severity = Severity.critical ∧
    (PublicBucket.detect e).auto_remediate = true ∧
    (PublicBucket.detect e).recommended_actions =
      ["revoke_access", "block_public", "alert_team"] := by
  have hfac : PublicBucket.analyzeBucket bn e =
      [("public_access_block_removed", 90)] := by
    simp [PublicBucket.analyzeBucket, hev, hsens]
  have hscore :
      calculateRiskScore [("public_access_block_removed", (90 : ℚ))] = 90 := by
    simp [calculateRiskScore, pymin]
    norm_num
  refine ⟨?_, ?_, ?_, ?_⟩ <;>
    simp [PublicBucket.detect, hev, hbn, truthy, hne, hfac, hscore,
          determineSeverity, PublicBucket.dangerousActions] <;>
    norm_num

/-- Witness for `c6_amended` at a concrete event on the non-sensitive bucket
`data-x`. -/
theorem c6_amended_witness :
    (PublicBucket.detect
        { eventName := "DeleteBucketPublicAccessBlock",
          requestParameters := { bucketName := some "data-x" } }).severity =
      Severity.critical := by
  exact (c6_amended
    { eventName := "DeleteBucketPublicAccessBlock",
      requestParameters := { bucketName := some "data-x" } }
    "data-x" rfl (by decide) (by decide) (by decide)).2.1

/-! ## CrossAccountDetector (detectors/cross_account.py) -/

namespace CrossAccount

/-- `self._cross_account_actions`. -/
def crossAccountActions : List String :=
  ["AssumeRole", "GetFederationToken", "GetSessionToken"]

/-- Configuration the detector reads at construction: the parsed
`TRUSTED_ACCOUNTS` environment variable (split on commas, stripped,
empty entries dropped). -/
structure Config where
  trustedAccounts : List String := []
deriving DecidableEq, Repr

/-- `_extract_account_from_arn`: `arn.split(':')[4]` when the ARN looks like
an AWS ARN with at least five parts, `''` otherwise. -/
def extractAccountFromArn (arn : String) : String :=
  if !(arn == "") && containsStr arn "arn:aws:" then
    let parts := splitStr arn ":"
    if parts.length ≥ 5 then parts.getD 4 "" else ""
  else ""

/-- `_extract_source_account`: `userIdentity.accountId`, else the part of
`principalId` before `':'`, else the account of `userIdentity.arn`. -/
def extractSourceAccount (e : Event) : String :=
  let u := e.userIdentity
  if !(u.accountId == "") then u.accountId
  else if containsStr u.principalId ":" then
    (splitStr u.principalId ":").getD 0 ""
  else extractAccountFromArn u.arn

/-- `_extract_assumed_role`: `requestParameters.roleArn` defaulted to `''`. -/
def extractAssumedRole (e : Event) : String :=
  e.requestParameters.roleArn.getD ""

/-- Risk update of one session-policy statement: a `'*'` action or resource
gives 75; a sensitive action gives 60. -/
def sessionStmtRisk (risk : ℚ) (st : Statement) : ℚ :=
  let risk :=
    if st.actions.contains "*" || st.resources.contains "*" then pymax risk 75
    else risk
  let sensitive :=
    ["iam:*", "sts:AssumeRole", "s3:GetObject",
     "secretsmanager:GetSecretValue"]
  if st.actions.any (fun a => sensitive.contains a) then pymax risk 60 else risk

/-- `_analyze_session_policy`: a JSON decode error gives 0. -/
def analyzeSessionPolicy : PolicyInput → ℚ
  | .malformed => 0
  | .doc stmts => stmts.foldl sessionStmtRisk 0

/-- `_is_suspicious_ip`: skips AWS service IPs, and the threat-intelligence
lookup is permanently stubbed, so the answer is always `False`. -/
def isSuspiciousIp (_ipAddress : String) : Bool := false

/-- `_has_recent_failures`: placeholder that always returns `False` (no
historical event store). -/
def hasRecentFailures (_e : Event) : Bool := false

/-- `_analyze_cross_account_access`: the risk-factor dict in insertion
order. -/
def analyzeCrossAccountAccess (cfg : Config) (e : Event) : Factors :=
  let rp := e.requestParameters
  let sourceAccount := extractSourceAccount e
  (if !(sourceAccount == "") &&
      !(cfg.trustedAccounts.contains sourceAccount) then
     [("untrusted_source_account", (70 : ℚ))] else []) ++
  (if e.eventName == "AssumeRole" then
     let roleArn := rp.roleArn.getD ""
     (if !(roleArn == "") && !truthy rp.externalId then
        let targetAccount := extractAccountFromArn roleArn
        let callerAccount := e.recipientAccountId
        if !(targetAccount == callerAccount) then
          [("no_external_id", (60 : ℚ))] else []
      else []) ++
     (match rp.policy with
      | some p =>
          let r := analyzeSessionPolicy p
          if r > 0 then [("dangerous_session_policy", r)] else []
      | none => [])
   else []) ++
  (if (rp.durationSeconds.getD 3600) > 43200 then
     [("excessive_session_duration", (45 : ℚ))] else []) ++
  (if e.eventName == "GetFederationToken" then
     [("federated_access", (50 : ℚ))] else []) ++
  (if isSuspiciousIp e.sourceIPAddress then
     [("suspicious_source_ip", (55 : ℚ))] else []) ++
  (if !truthy e.errorCode && hasRecentFailures e then
     [("retry_after_failures", (65 : ℚ))] else []) ++
  (if e.userIdentity.type == "AssumedRole" then
     [("role_chaining", (40 : ℚ))] else []) ++
  (if isOffHours e.eventTime then [("off_hours_access", (30 : ℚ))] else [])

/-- `CrossAccountDetector.detect`. -/
def detect (cfg : Config) (e : Event) : DetectionResult :=
  if !(crossAccountActions.contains e.eventName) then
    zeroResult "CrossAccountDetector"
      { reason := some "Not a cross-account access event" }
  else
    let riskFactors := analyzeCrossAccountAccess cfg e
    let riskScore := calculateRiskScore riskFactors
    let severity := determineSeverity riskScore
    let isThreat : Bool := riskScore ≥ 40
    let recommendedActions :=
      if isThreat then
        let ra := ["alert_team"]
        if riskScore ≥ 70 then "revoke_access" :: ra else ra
      else []
    { is_threat := isThreat, risk_score := riskScore, severity := severity,
      details :=
        { event_name := some e.eventName, risk_factors := some riskFactors,
          request_parameters := some e.requestParameters,
          source_account := some (extractSourceAccount e),
          assumed_role := some (extractAssumedRole e) },
      recommended_actions := recommendedActions,
      auto_remediate := riskScore ≥ 80,
      detector_name := some "CrossAccountDetector" }

end CrossAccount

/-- A same-account `AssumeRole` with no chaining and no extractable source
account, whose session policy carries a wildcard action and resource. -/
def c9WildcardPolicyEvent : Event :=
  { eventName := "AssumeRole",
    eventTime := "2024-01-01T12:00:00Z",
    recipientAccountId := "111122223333",
    userIdentity := { type := "IAMUser" },
    requestParameters :=
      { roleArn := some "arn:aws:iam::111122223333:role/Test",
        policy := some (.doc [{ actions := ["*"], resources := ["*"] }]) } }

/-- C9 counterexample: a same-account `AssumeRole` with no role chaining and
no untrusted-account flag (the source account is empty, so the flag cannot
fire) still scores 75 — not `< 70` — because the wildcard session policy
contributes a 75-point factor that is the only factor. -/
theorem c9_counterexample :
    c9WildcardPolicyEvent.eventName = "AssumeRole" ∧
    CrossAccount.extractAccountFromArn
        (c9WildcardPolicyEvent.requestParameters.roleArn.getD "") =
      c9WildcardPolicyEvent.recipientAccountId ∧
    c9WildcardPolicyEvent.userIdentity.type ≠ "AssumedRole" ∧
    CrossAccount.extractSourceAccount c9WildcardPolicyEvent = "" ∧
    (CrossAccount.detect {} c9WildcardPolicyEvent).risk_score = 75 ∧
    ¬((CrossAccount.detect {} c9WildcardPolicyEvent).risk_score < 70) := by
  have hfac : CrossAccount.analyzeCrossAccountAccess {} c9WildcardPolicyEvent =
      [("dangerous_session_policy", 75)] := by decide
  have hscore : calculateRiskScore
      (CrossAccount.analyzeCrossAccountAccess {} c9WildcardPolicyEvent) = 75 := by
    rw [hfac]
    simp [calculateRiskScore, pymin]
    norm_num
  have hgate : c9WildcardPolicyEvent.eventName ∈
      CrossAccount.crossAccountActions := by decide
  refine ⟨rfl, by decide, by decide, by decide, ?_, ?_⟩ <;>
    simp [CrossAccount.detect, hgate, hscore] <;>
    norm_num

/-- C9 amended: for every `AssumeRole` event whose target account equals the
caller account, whose calling principal is not an assumed role, whose source
account triggers no untrusted-account flag, and whose session policy (when
present) does not trigger the 75-point wildcard factor, the cross-account
risk score is strictly below 70 (indeed at most 60). -/
theorem c9_amended (cfg : CrossAccount.Config) (e : Event)
    (hev : e.eventName = "AssumeRole")
    (htar : CrossAccount.extractAccountFromArn
        (e.requestParameters.roleArn.getD "") = e.recipientAccountId)
    (hchain : e.userIdentity.type ≠ "AssumedRole")
    (hsrc : CrossAccount.extractSourceAccount e = "" ∨
      cfg.trustedAccounts.contains (CrossAccount.extractSourceAccount e) = true)
    (hpol : ∀ p, e.requestParameters.policy = some p →
      CrossAccount.analyzeSessionPolicy p ≤ 60) :
    (CrossAccount.detect cfg e).risk_score < 70 := by
  have hb : ∀ p ∈ CrossAccount.analyzeCrossAccountAccess cfg e,
      p.2 ≤ (60 : ℚ) := by
    intro p hp
    simp only [CrossAccount.analyzeCrossAccountAccess, List.mem_append] at hp
    rcases hp with (((((((hp | hp) | hp) | hp) | hp) | hp) | hp) | hp)
    · rcases hsrc with h | h
      · simp [h] at hp
      · simp at hp
        exact absurd (by simpa using h) hp.1.2
    · rw [if_pos (by simp [hev])] at hp
      rw [List.mem_append] at hp
      rcases hp with hp | hp
      · split_ifs at hp <;> simp at hp
        simp [hp]
      · rcases hpolEq : e.requestParameters.policy with _ | pol <;>
          rw [hpolEq] at hp <;> simp at hp
        rw [hp.2]
        simpa using hpol pol hpolEq
    · split_ifs at hp <;> simp at hp
      simp [hp]
      norm_num
    · split_ifs at hp <;> simp at hp
      simp [hp]
      norm_num
    · simp [CrossAccount.isSuspiciousIp] at hp
    · simp [CrossAccount.hasRecentFailures] at hp
    · split_ifs at hp <;> simp at hp
      simp [hp]
      norm_num
    · split_ifs at hp <;> simp at hp
      simp [hp]
      norm_num
  have hscore := calculateRiskScore_le_of_forall_le
    (CrossAccount.analyzeCrossAccountAccess cfg e) 60 (by norm_num) hb
  have hrs : (CrossAccount.detect cfg e).risk_score =
      calculateRiskScore (CrossAccount.analyzeCrossAccountAccess cfg e) := by
    simp [CrossAccount.detect, hev, CrossAccount.crossAccountActions]
  rw [hrs]
  linarith

/-- Witness for `c9_amended` at a concrete in-policy same-account
`AssumeRole` event. -/
theorem c9_amended_witness :
    (CrossAccount.detect {}
        { eventName := "AssumeRole",
          recipientAccountId := "111122223333",
          userIdentity := { type := "IAMUser" },
          requestParameters :=
            { roleArn := some "arn:aws:iam::111122223333:role/Test" } }).risk_score
      < 70 := by
  exact c9_amended {}
    { eventName := "AssumeRole",
      recipientAccountId := "111122223333",
      userIdentity := { type := "IAMUser" },
      requestParameters :=
        { roleArn := some "arn:aws:iam::111122223333:role/Test" } }
    rfl (by decide) (by decide) (Or.inl (by decide))
    (by intro p hp; simp at hp)

/-! ## AdminGrantDetector (detectors/admin_grant.py) -/

namespace AdminGrant

/-- `self._admin_actions`. -/
def adminActions : List String :=
  ["AttachUserPolicy", "AttachGroupPolicy", "AttachRolePolicy",
   "PutUserPolicy", "PutGroupPolicy", "PutRolePolicy",
   "CreateAccessKey", "UpdateAssumeRolePolicy"]

/-- `self._admin_policies`. -/
def adminPolicies : List String :=
  ["AdministratorAccess", "PowerUserAccess", "IAMFullAccess", "SecurityAudit"]

/-- Configuration read at construction: the parsed `WHITELISTED_PRINCIPALS`
environment variable. -/
structure Config where
  whitelist : List String := []
deriving DecidableEq, Repr

/-- `_extract_principal`: prefer the ARN, then the principal id, then the
account id. -/
def extractPrincipal (u : UserIdentity) : String :=
  if !(u.arn == "") then u.arn
  else if !(u.principalId == "") then u.principalId
  else u.accountId

/-- Risk update of one inline-policy statement (`_analyze_policy_document`):
wildcard action 95, dangerous IAM action 80, wildcard resource 70, all only
under `Effect: Allow`. -/
def inlineStmtRisk (risk : ℚ) (st : Statement) : ℚ :=
  if st.effect == "Allow" then
    let risk :=
      if st.actions.contains "*" || st.actions.contains "iam:*" then
        pymax risk 95
      else risk
    let dangerousActions :=
      ["iam:CreatePolicyVersion", "iam:SetDefaultPolicyVersion",
       "iam:PassRole", "iam:AttachUserPolicy", "iam:AttachRolePolicy",
       "sts:AssumeRole"]
    let risk :=
      if st.actions.any (fun a => dangerousActions.contains a) then
        pymax risk 80
      else risk
    if st.resources.contains "*" then pymax risk 70 else risk
  else risk

/-- `_analyze_policy_document`: a JSON decode error gives 0. -/
def analyzePolicyDocument : PolicyInput → ℚ
  | .malformed => 0
  | .doc stmts => stmts.foldl inlineStmtRisk 0

/-- Risk update of one trust-policy statement
(`_analyze_assume_role_policy`). A string principal makes
`principal.get('AWS')` raise `AttributeError` (either at the wildcard test
when it is not `'*'`, or at the `isinstance` test when it is), and a
cross-account `AWS` string with `':'` but fewer than five `':'`-separated
parts makes the `[4]` index raise; both abort the whole analysis. -/
def assumeStmtRisk (risk : ℚ) (st : Statement) : Except Unit ℚ := do
  let wild ←
    match st.principal with
    | .str s => if s == "*" then pure true else Except.error ()
    | .dict aws => pure (aws == some "*")
    | .absent => pure false
  let risk := if wild then pymax risk 95 else risk
  match st.principal with
  | .str _ => Except.error ()
  | .dict (some s) =>
      if containsStr s ":" then
        let parts := splitStr s ":"
        if parts.length ≥ 5 then
          let acct := parts.getD 4 ""
          pure (if !(acct == "") && !st.hasExternalIdCondition then
                  pymax risk 60
                else risk)
        else Except.error ()
      else pure risk
  | _ => pure risk

/-- `_analyze_assume_role_policy`: a JSON decode error or an exception in
the statement loop gives 0. -/
def analyzeAssumeRolePolicy : PolicyInput → ℚ
  | .malformed => 0
  | .doc stmts =>
      match stmts.foldlM assumeStmtRisk 0 with
      | .ok r => r
      | .error _ => 0

/-- `_is_unusual_ip`: the reputation lookup is permanently stubbed, so the
answer is always `False`. -/
def isUnusualIp (_ipAddress : String) : Bool := false

/-- `_analyze_permission_grant`: the risk-factor dict in insertion order. -/
def analyzePermissionGrant (e : Event) : Factors :=
  let rp := e.requestParameters
  (if containsStr e.eventName "Policy" then
     let policyArn := rp.policyArn.getD ""
     let policyName :=
       if policyArn == "" then ""
       else ((splitStr policyArn "/").getLast?).getD ""
     (if adminPolicies.any (fun a => containsStr policyName a) then
        [("admin_policy_attached", (95 : ℚ))] else []) ++
     (match rp.policyDocument with
      | some pd =>
          let r := analyzePolicyDocument pd
          if r > 0 then [("dangerous_inline_policy", r)] else []
      | none => [])
   else []) ++
  (if e.eventName == "CreateAccessKey" then
     let userName := rp.userName.getD ""
     let creator := extractPrincipal e.userIdentity
     if !(userName == "") && !containsStr creator userName then
       [("cross_user_key_creation", (85 : ℚ))] else []
   else []) ++
  (if e.eventName == "UpdateAssumeRolePolicy" then
     match rp.policyDocument with
     | some pd =>
         let r := analyzeAssumeRolePolicy pd
         if r > 0 then [("dangerous_assume_role_policy", r)] else []
     | none => []
   else []) ++
  (if isUnusualIp e.sourceIPAddress then [("unusual_source_ip", (40 : ℚ))]
   else []) ++
  (if isOffHours e.eventTime then [("off_hours_activity", (30 : ℚ))]
   else []) ++
  (if truthy e.errorCode || truthy e.errorMessage then
     [("error_in_request", (20 : ℚ))] else [])

/-- `AdminGrantDetector.detect`. -/
def detect (cfg : Config) (e : Event) : DetectionResult :=
  if !(adminActions.contains e.eventName) then
    zeroResult "AdminGrantDetector"
      { reason := some "Not an admin grant event" }
  else
    let principal := extractPrincipal e.userIdentity
    if cfg.whitelist.contains principal then
      zeroResult "AdminGrantDetector"
        { reason := some ("Principal " ++ principal ++ " is whitelisted") }
    else
      let riskFactors := analyzePermissionGrant e
      let riskScore := calculateRiskScore riskFactors
      let severity := determineSeverity riskScore
      let isThreat : Bool := riskScore ≥ 50
      let recommendedActions :=
        if isThreat then
          let ra := ["alert_team"]
          if riskScore ≥ 70 then "revoke_access" :: ra else ra
        else []
      { is_threat := isThreat, risk_score := riskScore, severity := severity,
        details :=
          { event_name := some e.eventName, principal := some principal,
            risk_factors := some riskFactors,
            request_parameters := some e.requestParameters },
        recommended_actions := recommendedActions,
        auto_remediate := riskScore ≥ 80,
        detector_name := some "AdminGrantDetector" }

end AdminGrant

/-! ## PolicyChangeDetector (detectors/policy_change.py) -/

namespace PolicyChange

/-- `self._sensitive_policy_actions`. -/
def sensitivePolicyActions : List String :=
  ["CreatePolicy", "CreatePolicyVersion", "SetDefaultPolicyVersion",
   "DeletePolicy", "DeletePolicyVersion", "DetachRolePolicy",
   "DetachUserPolicy", "DetachGroupPolicy"]

/-- `self._critical_resources`. -/
def criticalResources : List String :=
  ["iam", "kms", "cloudtrail", "guardduty", "config",
   "securityhub", "cloudwatch", "logs"]

/-- Risk update of one new-policy statement (`_analyze_policy_content`).
The `Deny` branch searches the critical keywords in `str(actions).lower()`;
it is modelled as a keyword search over the lowered action strings. -/
def contentStmtRisk (risk : ℚ) (st : Statement) : ℚ :=
  if st.effect == "Allow" then
    let risk :=
      if st.actions.contains "*" && st.resources.contains "*" then
        pymax risk 95
      else risk
    let securityActions :=
      ["cloudtrail:StopLogging", "cloudtrail:DeleteTrail",
       "guardduty:DeleteDetector", "config:DeleteConfigRule",
       "iam:DeleteAccountPasswordPolicy", "kms:ScheduleKeyDeletion",
       "logs:DeleteLogGroup"]
    let risk :=
      if st.actions.any (fun a => securityActions.contains a) then
        pymax risk 85
      else risk
    let exfilActions :=
      ["s3:GetObject", "rds:CopyDBSnapshot", "ec2:CreateSnapshot",
       "lambda:GetFunction"]
    if st.actions.any (fun a => exfilActions.contains a) &&
       st.resources.contains "*" then
      pymax risk 70
    else risk
  else if st.effect == "Deny" then
    if criticalResources.any
        (fun c => st.actions.any (fun a => containsStr (lowerStr a) c)) then
      pymax risk 80
    else risk
  else risk

/-- `_analyze_policy_content`: a JSON decode error gives 0. -/
def analyzePolicyContent : PolicyInput → ℚ
  | .malformed => 0
  | .doc stmts => stmts.foldl contentStmtRisk 0

/-- `_detect_rapid_changes`: placeholder that always returns `False`. -/
def detectRapidChanges (_e : Event) : Bool := false

/-- `_affects_critical_service`: critical keyword in the policy ARN, else in
the policy-document text (modelled as a keyword search over the parsed
statement fields of the document). -/
def affectsCriticalService (e : Event) : Bool :=
  let rp := e.requestParameters
  let policyArn := rp.policyArn.getD ""
  if criticalResources.any (fun c => containsStr (lowerStr policyArn) c) then
    true
  else
    match rp.policyDocument with
    | some (.doc stmts) =>
        criticalResources.any (fun c =>
          stmts.any (fun st =>
            st.actions.any (fun a => containsStr (lowerStr a) c) ||
            st.resources.any (fun r => containsStr (lowerStr r) c)))
    | some .malformed => false
    | none => false

/-- `_analyze_policy_change`: the risk-factor dict in insertion order. -/
def analyzePolicyChange (e : Event) : Factors :=
  let rp := e.requestParameters
  (if e.eventName == "DeletePolicy" || e.eventName == "DeletePolicyVersion"
   then
     [("policy_deletion", (75 : ℚ))] ++
     (let policyArn := rp.policyArn.getD ""
      if criticalResources.any
          (fun c => containsStr (lowerStr policyArn) c) then
        [("critical_policy_deleted", (90 : ℚ))] else [])
   else []) ++
  (if e.eventName == "SetDefaultPolicyVersion" then
     [("policy_version_change", (65 : ℚ))] else []) ++
  (if containsStr e.eventName "Detach" then
     [("policy_detached", (60 : ℚ))] else []) ++
  (if e.eventName == "CreatePolicy" || e.eventName == "CreatePolicyVersion"
   then
     match rp.policyDocument with
     | some pd =>
         let r := analyzePolicyContent pd
         if r > 0 then [("dangerous_policy_content", r)] else []
     | none => []
   else []) ++
  (if detectRapidChanges e then [("rapid_policy_changes", (50 : ℚ))]
   else []) ++
  (if truthy e.errorCode then [("failed_attempt", (25 : ℚ))] else []) ++
  (if affectsCriticalService e then [("affects_critical_service", (55 : ℚ))]
   else [])

/-- `PolicyChangeDetector.detect`. -/
def detect (e : Event) : DetectionResult :=
  if !(sensitivePolicyActions.contains e.eventName) then
    zeroResult "PolicyChangeDetector"
      { reason := some "Not a policy change event" }
  else
    let riskFactors := analyzePolicyChange e
    let riskScore := calculateRiskScore riskFactors
    let severity := determineSeverity riskScore
    let isThreat : Bool := riskScore ≥ 45
    let recommendedActions :=
      if isThreat then
        let ra := ["alert_team"]
        if riskScore ≥ 75 then "revoke_access" :: ra else ra
      else []
    { is_threat := isThreat, risk_score := riskScore, severity := severity,
      details :=
        { event_name := some e.eventName, risk_factors := some riskFactors,
          request_parameters := some e.requestParameters },
      recommended_actions := recommendedActions,
      auto_remediate := riskScore ≥ 85,
      detector_name := some "PolicyChangeDetector" }

end PolicyChange

/-! ## MachineIdentityDetector (detectors/machine_identity.py) -/

namespace MachineIdentity

/-- `self._machine_identity_patterns`. -/
def machineIdentityPatterns : List String :=
  ["service-account", "svc-", "sa-", "bot-", "automation-",
   "ci-", "cd-", "pipeline-", "lambda-", "function-",
   "worker-", "agent-", "system-", "app-", "integration-"]

/-- `self._monitored_actions`. -/
def monitoredActions : List String :=
  ["CreateServiceAccount", "DeleteServiceAccount", "UpdateServiceAccount",
   "SetIamPolicy",
   "CreateAccessKey", "DeleteAccessKey", "UpdateAccessKey",
   "RotateAccessKey",
   "CreateServiceAccountKey", "DeleteServiceAccountKey",
   "AssumeRole", "AssumeRoleWithWebIdentity", "AssumeRoleWithSAML",
   "GetSessionToken", "GetFederationToken",
   "CreateOIDCToken", "SignJwt", "SignBlob",
   "GenerateAccessToken", "ImpersonateServiceAccount"]

/-- `self._high_risk_actions`. -/
def highRiskActions : List String :=
  ["iam:CreateAccessKey", "iam:CreateServiceAccountKey", "iam:PassRole",
   "sts:AssumeRole", "iam:UpdateAssumeRolePolicy", "iam:AttachRolePolicy",
   "iam:PutRolePolicy", "secretsmanager:GetSecretValue", "kms:Decrypt",
   "dynamodb:*", "rds:*"]

/-- Per-principal activity baseline from `self._service_account_baselines`
(`{}` at construction; only tests populate it). `lastActivityDaysAgo` models
`(datetime.now() - baseline['last_activity']).days` with the wall clock
folded into the configuration. -/
structure Baseline where
  lastActivityDaysAgo : Option Int := none
  typicalResources : List String := []
  typicalIps : List String := []
deriving DecidableEq, Repr

/-- Configuration and instance state the detector reads: the parsed
`CICD_IP_RANGES` variable, the baseline map, the two day thresholds, and
the raw `TRUSTED_ACCOUNTS` split used by `_check_cross_account_usage`
(`os.getenv('TRUSTED_ACCOUNTS', '').split(',')`, unstripped and unfiltered,
so an unset variable yields `[""]`). -/
structure Config where
  cicdIpRanges : List String := []
  baselines : List (String × Baseline) := []
  keyRotationThreshold : Int := 90
  dormantThreshold : Int := 30
  trustedAccountsRaw : List String := [""]
deriving DecidableEq, Repr

/-- `_is_machine_identity`. -/
def isMachineIdentity (u : UserIdentity) : Bool :=
  let arn := lowerStr u.arn
  let sessionName := lowerStr u.sessionIssuerUserName
  (["AssumedRole", "FederatedUser", "WebIdentityUser", "SAMLUser"].contains
    u.type) ||
  machineIdentityPatterns.any
    (fun p => containsStr arn p || containsStr sessionName p) ||
  (containsStr arn ":role/" && containsStr arn "service-role") ||
  containsStr arn "lambda" || containsStr arn "function"

/-- `_is_machine_identity_event`. -/
def isMachineIdentityEvent (e : Event) : Bool :=
  monitoredActions.contains e.eventName || isMachineIdentity e.userIdentity

/-- `_check_key_age_violation`: the key-metadata lookup is permanently
stubbed, so the answer is always 0. -/
def checkKeyAgeViolation (_e : Event) : ℚ := 0

/-- `_check_dormant_account`: dormancy beyond the threshold scores
`min(85, 50 + days)`. -/
def checkDormantAccount (cfg : Config) (e : Event) : ℚ :=
  let baseline := (cfg.baselines.lookup e.userIdentity.arn).getD {}
  match baseline.lastActivityDaysAgo with
  | some days =>
      if days > cfg.dormantThreshold then pymin 85 (50 + (days : ℚ)) else 0
  | none => 0

/-- `_check_resource_scope_anomaly`: resources outside the learned baseline
score `min(80, 40 + deviation_ratio * 40)`. -/
def checkResourceScopeAnomaly (cfg : Config) (e : Event) : ℚ :=
  let baseline := (cfg.baselines.lookup e.userIdentity.arn).getD {}
  let normal := baseline.typicalResources
  let current := e.resources.dedup
  let unusual := current.filter (fun r => !(normal.contains r))
  if !unusual.isEmpty && normal.length > 0 then
    let ratio : ℚ := (unusual.length : ℚ) / (max 1 normal.length : ℕ)
    pymin 80 (40 + ratio * 40)
  else 0

/-- `_check_location_anomaly`: a new source IP scores 60, plus 20 when it
names a public cloud provider. -/
def checkLocationAnomaly (cfg : Config) (e : Event) : ℚ :=
  let ip := e.sourceIPAddress
  let isKnownCicd := cfg.cicdIpRanges.any (fun r => startsWithStr ip r)
  let baseline := (cfg.baselines.lookup e.userIdentity.arn).getD {}
  let normalIps := baseline.typicalIps
  if !(ip == "") && !isKnownCicd && !(normalIps.contains ip) &&
     normalIps.length > 0 then
    if ["amazonaws.com", "azure", "googleusercontent"].any
        (fun p => containsStr ip p) then (60 : ℚ) + 20
    else 60
  else 0

/-- `_check_privilege_escalation`. -/
def checkPrivilegeEscalation (e : Event) : ℚ :=
  let escalationActions :=
    ["AttachRolePolicy", "PutRolePolicy", "UpdateAssumeRolePolicy",
     "PassRole", "CreatePolicyVersion", "SetDefaultPolicyVersion"]
  if escalationActions.contains e.eventName then
    let principalArn := e.userIdentity.arn
    let targetRole := e.requestParameters.roleName.getD ""
    if !(targetRole == "") && containsStr principalArn targetRole then 90
    else
      let policyArn := e.requestParameters.policyArn.getD ""
      if containsStr policyArn "Admin" || containsStr policyArn "FullAccess"
      then 85
      else 70
  else 0

/-- `_check_cross_account_usage`. -/
def checkCrossAccountUsage (cfg : Config) (e : Event) : ℚ :=
  let userAccount := e.userIdentity.accountId
  let recipientAccount := e.recipientAccountId
  if !(userAccount == "") && !(recipientAccount == "") &&
     !(userAccount == recipientAccount) then
    if !(cfg.trustedAccountsRaw.contains recipientAccount) then 75 else 35
  else 0

/-- `_check_impersonation_chain`: chain depth is the number of `':'` in the
principal id; the GCP impersonation check runs only when the depth checks
did not fire. -/
def checkImpersonationChain (e : Event) : ℚ :=
  let u := e.userIdentity
  if u.hasSessionIssuer && countChar u.principalId ':' ≥ 3 then 85
  else if u.hasSessionIssuer && countChar u.principalId ':' ≥ 2 then 60
  else if e.eventName == "ImpersonateServiceAccount" then 70
  else 0

/-- `_check_high_risk_actions`: the action string is
`eventSource.split('.')[0] + ':' + eventName`, matched against the
high-risk set by substring in either direction. -/
def checkHighRiskActions (e : Event) : ℚ :=
  let action := ((splitStr e.eventSource ".").getD 0 "") ++ ":" ++ e.eventName
  if highRiskActions.any
      (fun hra => containsStr action hra || containsStr hra action) then
    let lowered := lowerStr action
    if containsStr lowered "secretsmanager" ||
       containsStr lowered "kms:decrypt" then 80
    else if containsStr lowered "passrole" then 75
    else 55
  else 0

/-- `_check_bot_anomalies`: a bot-like user agent off hours scores 45. -/
def checkBotAnomalies (e : Event) : ℚ :=
  let ua := lowerStr e.userAgent
  let botIndicators :=
    ["bot", "automation", "script", "curl", "python", "java", "go-http"]
  if botIndicators.any (fun i => containsStr ua i) then
    if isOffHours e.eventTime then 45 else 0
  else 0

/-- `_check_cicd_credential_misuse`. -/
def checkCicdCredentialMisuse (cfg : Config) (e : Event) : ℚ :=
  let arn := lowerStr e.userIdentity.arn
  let cicdIndicators :=
    ["ci-", "cd-", "pipeline-", "jenkins", "gitlab", "github",
     "circleci", "travis"]
  if cicdIndicators.any (fun i => containsStr arn i) then
    let ip := e.sourceIPAddress
    let isKnownCicdIp := cfg.cicdIpRanges.any (fun r => startsWithStr ip r)
    if !isKnownCicdIp && !(ip == "") then 85
    else
      let unusual := ["CreateAccessKey", "DeleteUser", "AttachUserPolicy"]
      if unusual.contains e.eventName then 75 else 0
  else 0

/-- The risk-factor dict built inline in `detect` (checks 1-10 in source
order, each added only when positive). -/
def analyzeMachineIdentity (cfg : Config) (e : Event) : Factors :=
  (if e.eventName == "CreateAccessKey" ||
      e.eventName == "CreateServiceAccountKey" then
     let r := checkKeyAgeViolation e
     if r > 0 then [("old_service_account_key", r)] else []
   else []) ++
  (let r := checkDormantAccount cfg e
   if r > 0 then [("dormant_account_activated", r)] else []) ++
  (let r := checkResourceScopeAnomaly cfg e
   if r > 0 then [("out_of_scope_access", r)] else []) ++
  (let r := checkLocationAnomaly cfg e
   if r > 0 then [("unexpected_location", r)] else []) ++
  (let r := checkPrivilegeEscalation e
   if r > 0 then [("privilege_escalation", r)] else []) ++
  (let r := checkCrossAccountUsage cfg e
   if r > 0 then [("cross_account_usage", r)] else []) ++
  (let r := checkImpersonationChain e
   if r > 0 then [("impersonation_chain", r)] else []) ++
  (let r := checkHighRiskActions e
   if r > 0 then [("high_risk_action", r)] else []) ++
  (let r := checkBotAnomalies e
   if r > 0 then [("bot_anomaly", r)] else []) ++
  (let r := checkCicdCredentialMisuse cfg e
   if r > 0 then [("cicd_credential_misuse", r)] else [])

/-- `_generate_recommendations`: `revoke_access` at score 80, `alert_team`
at score 50, then factor-specific advice in source order. -/
def generateRecommendations (riskScore : ℚ) (riskFactors : Factors) :
    List String :=
  let hasKey := fun (k : String) => riskFactors.any (fun p => p.1 == k)
  (if riskScore ≥ 80 then ["revoke_access"] else []) ++
  (if riskScore ≥ 50 then ["alert_team"] else []) ++
  (if hasKey "old_service_account_key" then ["rotate_service_account_key"]
   else []) ++
  (if hasKey "dormant_account_activated" then ["verify_account_reactivation"]
   else []) ++
  (if hasKey "privilege_escalation" then ["audit_permission_changes"]
   else []) ++
  (if hasKey "cross_account_usage" then ["verify_cross_account_access"]
   else []) ++
  (if hasKey "impersonation_chain" then ["investigate_impersonation_chain"]
   else []) ++
  (if hasKey "cicd_credential_misuse" then
     ["rotate_cicd_credentials", "audit_cicd_infrastructure"] else []) ++
  (if hasKey "unexpected_location" then
     ["verify_source_ip", "enable_ip_whitelisting"] else [])

/-- `MachineIdentityDetector.detect`. -/
def detect (cfg : Config) (e : Event) : DetectionResult :=
  if !isMachineIdentityEvent e then
    zeroResult "MachineIdentityDetector"
      { reason := some "Not a machine identity event" }
  else
    let riskFactors := analyzeMachineIdentity cfg e
    let riskScore := calculateRiskScore riskFactors
    let severity := determineSeverity riskScore
    let isThreat : Bool := riskScore ≥ 40
    { is_threat := isThreat, risk_score := riskScore, severity := severity,
      details :=
        { event_name := some e.eventName, risk_factors := some riskFactors,
          request_parameters := some e.requestParameters },
      recommended_actions := generateRecommendations riskScore riskFactors,
      auto_remediate := riskScore ≥ 80,
      detector_name := some "MachineIdentityDetector" }

end MachineIdentity

/-- A bot-user-agent off-hours `GetSessionToken` event whose only risk
factor is the 45-point bot anomaly. -/
def offHoursBotEvent : Event :=
  { eventName := "GetSessionToken",
    eventTime := "2024-01-01T23:00:00Z",
    userAgent := "bot",
    userIdentity := { type := "IAMUser" } }

/-- C5 counterexample: the machine-identity detector flags the off-hours bot
event as a threat (score 45 ≥ 40) yet returns recommended actions without
`alert_team`, because `_generate_recommendations` adds `alert_team` only at
score 50. -/
theorem c5_counterexample :
    (MachineIdentity.detect {} offHoursBotEvent).is_threat = true ∧
    "alert_team" ∉
      (MachineIdentity.detect {} offHoursBotEvent).recommended_actions := by
  have hfac : MachineIdentity.analyzeMachineIdentity {} offHoursBotEvent =
      [("bot_anomaly", 45)] := by decide
  have hscore : calculateRiskScore [("bot_anomaly", (45 : ℚ))] = 45 :=
    calculateRiskScore_singleton _ _ (by norm_num)
  have hgate : MachineIdentity.isMachineIdentityEvent offHoursBotEvent = true := by
    decide
  constructor <;>
    simp [MachineIdentity.detect, hgate, hscore, hfac,
          MachineIdentity.generateRecommendations] <;>
    norm_num

/-- C5 amended: the four orchestrated detectors (PublicBucket, AdminGrant,
PolicyChange, CrossAccount) include `alert_team` in the recommended actions
of every threat; the machine-identity detector includes it only for threats
whose score also reaches its 50-point alert threshold. -/
theorem c5_amended :
    (∀ e : Event, (PublicBucket.detect e).is_threat = true →
      "alert_team" ∈ (PublicBucket.detect e).recommended_actions) ∧
    (∀ (cfg : AdminGrant.Config) (e : Event),
      (AdminGrant.detect cfg e).is_threat = true →
      "alert_team" ∈ (AdminGrant.detect cfg e).recommended_actions) ∧
    (∀ e : Event, (PolicyChange.detect e).is_threat = true →
      "alert_team" ∈ (PolicyChange.detect e).recommended_actions) ∧
    (∀ (cfg : CrossAccount.Config) (e : Event),
      (CrossAccount.detect cfg e).is_threat = true →
      "alert_team" ∈ (CrossAccount.detect cfg e).recommended_actions) ∧
    (∀ (cfg : MachineIdentity.Config) (e : Event),
      (MachineIdentity.detect cfg e).is_threat = true →
      50 ≤ (MachineIdentity.detect cfg e).risk_score →
      "alert_team" ∈ (MachineIdentity.detect cfg e).recommended_actions) := by
  refine ⟨?_, ?_, ?_, ?_, ?_⟩
  · intro e ht
    simp only [PublicBucket.detect] at ht ⊢
    split at ht
    · simp [zeroResult] at ht
    · split at ht
      · simp [zeroResult] at ht
      · rename_i h1 h2
        rw [if_neg h1, if_neg h2]
        simp at ht
        simp [ht]
        split <;> simp
  · intro cfg e ht
    simp only [AdminGrant.detect] at ht ⊢
    split at ht
    · simp [zeroResult] at ht
    · split at ht
      · simp [zeroResult] at ht
      · rename_i h1 h2
        rw [if_neg h1, if_neg h2]
        simp at ht
        simp [ht]
        split <;> simp
  · intro e ht
    simp only [PolicyChange.detect] at ht ⊢
    split at ht
    · simp [zeroResult] at ht
    · rename_i h1
      rw [if_neg h1]
      simp at ht
      simp [ht]
      split <;> simp
  · intro cfg e ht
    simp only [CrossAccount.detect] at ht ⊢
    split at ht
    · simp [zeroResult] at ht
    · rename_i h1
      rw [if_neg h1]
      simp at ht
      simp [ht]
      split <;> simp
  · intro cfg e ht h50
    simp only [MachineIdentity.detect] at ht h50 ⊢
    split at ht
    · simp [zeroResult] at ht
    · rename_i h1
      rw [if_neg h1] at h50 ⊢
      simp at h50
      simp [MachineIdentity.generateRecommendations, h50]

/-- An `AttachUserPolicy` of `AdministratorAccess` (admin-grant threat). -/
def adminAttachEvent : Event :=
  { eventName := "AttachUserPolicy",
    userIdentity := { arn := "arn:aws:iam::123456789012:user/alice" },
    requestParameters :=
      { userName := some "bob",
        policyArn := some "arn:aws:iam::aws:policy/AdministratorAccess" } }

/-- A `DetachUserPolicy` with no policy ARN (policy-change threat). -/
def detachPolicyEvent : Event :=
  { eventName := "DetachUserPolicy" }

/-- An `AttachRolePolicy` issued by an assumed role to its own role
(machine-identity privilege-escalation threat). -/
def selfEscalationEvent : Event :=
  { eventName := "AttachRolePolicy",
    userIdentity :=
      { type := "AssumedRole",
        arn := "arn:aws:sts::123456789012:assumed-role/app-x/session" },
    requestParameters := { roleName := some "app-x" } }

/-- Witness for `c5_amended`: each conjunct applied at a concrete threat of
its detector, discharging the hypotheses there. -/
theorem c5_amended_witness :
    ("alert_team" ∈ (PublicBucket.detect delBlockSensitiveEvent).recommended_actions) ∧
    ("alert_team" ∈ (AdminGrant.detect {} adminAttachEvent).recommended_actions) ∧
    ("alert_team" ∈ (PolicyChange.detect detachPolicyEvent).recommended_actions) ∧
    ("alert_team" ∈ (CrossAccount.detect {} c9WildcardPolicyEvent).recommended_actions) ∧
    ("alert_team" ∈ (MachineIdentity.detect {} selfEscalationEvent).recommended_actions) := by
  have hpb : (PublicBucket.detect delBlockSensitiveEvent).is_threat = true := by
    have h : PublicBucket.analyzeBucket "prod-data" delBlockSensitiveEvent =
        [("public_access_block_removed", 90), ("sensitive_bucket", 30)] := by
      decide
    have hbn : PublicBucket.extractBucketName delBlockSensitiveEvent =
        some "prod-data" := by decide
    have hscore : calculateRiskScore
        (PublicBucket.analyzeBucket "prod-data" delBlockSensitiveEvent) = 60 := by
      rw [h]
      simp [calculateRiskScore, pymin]
      norm_num
    simp [PublicBucket.detect, hbn, truthy, hscore]
    norm_num [delBlockSensitiveEvent, PublicBucket.dangerousActions]
  have hag : (AdminGrant.detect {} adminAttachEvent).is_threat = true := by
    have hfac : AdminGrant.analyzePermissionGrant adminAttachEvent =
        [("admin_policy_attached", 95)] := by decide
    have hscore : calculateRiskScore [("admin_policy_attached", (95 : ℚ))] = 95 :=
      calculateRiskScore_singleton _ _ (by norm_num)
    simp [AdminGrant.detect, hfac, hscore]
    norm_num [adminAttachEvent, AdminGrant.adminActions,
              AdminGrant.extractPrincipal]
  have hpc : (PolicyChange.detect detachPolicyEvent).is_threat = true := by
    have hfac : PolicyChange.analyzePolicyChange detachPolicyEvent =
        [("policy_detached", 60)] := by decide
    have hscore : calculateRiskScore [("policy_detached", (60 : ℚ))] = 60 :=
      calculateRiskScore_singleton _ _ (by norm_num)
    simp [PolicyChange.detect, hfac, hscore]
    norm_num [detachPolicyEvent, PolicyChange.sensitivePolicyActions]
  have hca : (CrossAccount.detect {} c9WildcardPolicyEvent).is_threat = true := by
    have hfac : CrossAccount.analyzeCrossAccountAccess {} c9WildcardPolicyEvent =
        [("dangerous_session_policy", 75)] := by decide
    have hscore : calculateRiskScore
        [("dangerous_session_policy", (75 : ℚ))] = 75 :=
      calculateRiskScore_singleton _ _ (by norm_num)
    have hgate : c9WildcardPolicyEvent.eventName ∈
        CrossAccount.crossAccountActions := by decide
    simp [CrossAccount.detect, hgate, hfac, hscore]
    norm_num
  have hmiFac : MachineIdentity.analyzeMachineIdentity {} selfEscalationEvent =
      [("privilege_escalation", 90), ("high_risk_action", 55)] := by decide
  have hmiScore : calculateRiskScore
      (MachineIdentity.analyzeMachineIdentity {} selfEscalationEvent) =
      145 / 2 := by
    rw [hmiFac]
    simp [calculateRiskScore, pymin]
    norm_num
  have hmiGate : MachineIdentity.isMachineIdentityEvent selfEscalationEvent =
      true := by decide
  have hmi : (MachineIdentity.detect {} selfEscalationEvent).is_threat = true := by
    simp [MachineIdentity.detect, hmiGate, hmiScore]
    norm_num
  have hmi50 : 50 ≤ (MachineIdentity.detect {} selfEscalationEvent).risk_score := by
    simp [MachineIdentity.detect, hmiGate, hmiScore]
    norm_num
  exact ⟨c5_amended.1 delBlockSensitiveEvent hpb,
         c5_amended.2.1 {} adminAttachEvent hag,
         c5_amended.2.2.1 detachPolicyEvent hpc,
         c5_amended.2.2.2.1 {} c9WildcardPolicyEvent hca,
         c5_amended.2.2.2.2 {} selfEscalationEvent hmi hmi50⟩

/-! ## Remediators (remediators/)

Every AWS or webhook call a remediator would issue is recorded in an
explicit effect list; an environment of oracles supplies each call's
outcome (`none` = success, `some code` = `ClientError` with that code). -/

/-- One external call. -/
inductive Effect where
  | detachUserPolicy (userName policyArn : String)
  | detachRolePolicy (roleName policyArn : String)
  | detachGroupPolicy (groupName policyArn : String)
  | deleteUserPolicy (userName policyName : String)
  | deleteRolePolicy (roleName policyName : String)
  | deleteGroupPolicy (groupName policyName : String)
  | putRolePolicy (roleName policyName : String)
  | deleteBucketPolicy (bucket : String)
  | putBucketAcl (bucket acl : String)
  | putPublicAccessBlock (bucket : String)
  | deleteBucketWebsite (bucket : String)
  | sendSlackWebhook
  | sendTeamsWebhook
deriving DecidableEq, Repr

/-- Outcomes of the AWS calls a remediator makes. -/
structure AwsEnv where
  callError : Effect → Option String := fun _ => none
  /-- `get_bucket_policy`: an error code, or the current policy document. -/
  getBucketPolicyResult : String → Except String PolicyInput :=
    fun _ => Except.error "NoSuchBucketPolicy"

/-- `REMEDIATION_DRY_RUN`, read at construction by RevokeAccessRemediator
and BlockPublicRemediator (AlertTeamRemediator reads no such flag). -/
structure RemediationConfig where
  dryRun : Bool := false
deriving DecidableEq, Repr

/-- The detail keys remediation results carry. -/
structure RemediationDetails where
  dry_run : Bool := false
  detection : Option Details := none
  bucket_name : Option String := none
  actions_taken : List String := []
  role_name : Option String := none
  policy_name : Option String := none
  note : Option String := none
  channels : List String := []
  errors : List String := []
deriving DecidableEq, Repr

/-- `RemediationResult` dataclass from remediators/__init__.py. -/
structure RemediationResult where
  success : Bool
  message : String
  details : RemediationDetails
  action_taken : Option String := none
  error : Option String := none
deriving DecidableEq, Repr

/-- `BaseRemediator._create_success_result`. -/
def createSuccessResult (message : String) (details : RemediationDetails)
    (actionTaken : String) : RemediationResult :=
  { success := true, message := message, details := details,
    action_taken := some actionTaken }

/-- `BaseRemediator._create_error_result`. -/
def createErrorResult (message error : String)
    (details : RemediationDetails := {}) : RemediationResult :=
  { success := false, message := message, details := details,
    error := some error }

namespace RevokeAccess

/-- `_revoke_iam_permissions`: one AWS detachment/deletion per admin-grant
event shape; `ClientError` is caught and reported, the `CreateAccessKey`
branch only records text without calling AWS. -/
def revokeIamPermissions (env : AwsEnv) (details : Details) :
    RemediationResult × List Effect :=
  let eventName := details.event_name.getD ""
  let rp := (details.request_parameters).getD {}
  let attempt := fun (eff : Effect) (acted : String) =>
    match env.callError eff with
    | some code =>
        (createErrorResult "AWS error revoking IAM permissions" code, [eff])
    | none =>
        (createSuccessResult "Successfully revoked IAM permissions"
          { actions_taken := [acted] } "revoke_iam_permissions", [eff])
  let noAction :=
    (createErrorResult "No actions taken"
      "Unable to determine remediation action", ([] : List Effect))
  if eventName == "AttachUserPolicy" then
    if truthy rp.userName && truthy rp.policyArn then
      attempt (.detachUserPolicy (rp.userName.getD "") (rp.policyArn.getD ""))
        ("Detached policy " ++ rp.policyArn.getD "" ++ " from user " ++
          rp.userName.getD "")
    else noAction
  else if eventName == "AttachRolePolicy" then
    if truthy rp.roleName && truthy rp.policyArn then
      attempt (.detachRolePolicy (rp.roleName.getD "") (rp.policyArn.getD ""))
        ("Detached policy " ++ rp.policyArn.getD "" ++ " from role " ++
          rp.roleName.getD "")
    else noAction
  else if eventName == "AttachGroupPolicy" then
    if truthy rp.groupName && truthy rp.policyArn then
      attempt (.detachGroupPolicy (rp.groupName.getD "") (rp.policyArn.getD ""))
        ("Detached policy " ++ rp.policyArn.getD "" ++ " from group " ++
          rp.groupName.getD "")
    else noAction
  else if eventName == "PutUserPolicy" || eventName == "PutRolePolicy" ||
          eventName == "PutGroupPolicy" then
    let entityName :=
      if truthy rp.userName then rp.userName.getD ""
      else if truthy rp.roleName then rp.roleName.getD ""
      else rp.groupName.getD ""
    let policyName := rp.policyName.getD ""
    if !(entityName == "") && !(policyName == "") then
      let eff :=
        if containsStr eventName "User" then
          Effect.deleteUserPolicy entityName policyName
        else if containsStr eventName "Role" then
          Effect.deleteRolePolicy entityName policyName
        else Effect.deleteGroupPolicy entityName policyName
      attempt eff
        ("Deleted inline policy " ++ policyName ++ " from " ++ entityName)
    else noAction
  else if eventName == "CreateAccessKey" then
    (createSuccessResult "Successfully revoked IAM permissions"
      { actions_taken :=
          ["Would delete access key for user " ++ rp.userName.getD ""] }
      "revoke_iam_permissions", [])
  else noAction

/-- `_revoke_assumed_role`: with the assumed role present, the code builds
the deny policy and then evaluates `int(os.time.time())` — the `os` module
has no attribute `time`, so an `AttributeError` is raised before
`put_role_policy` is reached; only `ClientError` is caught here, so the
exception propagates to `remediate` (modelled as `.error`). -/
def revokeAssumedRole (_env : AwsEnv) (details : Details) :
    Except String (RemediationResult × List Effect) :=
  let assumedRole := details.assumed_role.getD ""
  if assumedRole == "" then
    Except.ok
      (createErrorResult "No assumed role found in details"
        "Missing assumed_role", [])
  else
    Except.error "module os has no attribute time"

/-- `_revoke_bucket_permissions`: deletes the bucket policy (tolerating
`NoSuchBucketPolicy`, re-raising other codes into the `ClientError` handler)
and best-effort sets the ACL private. -/
def revokeBucketPermissions (env : AwsEnv) (details : Details) :
    RemediationResult × List Effect :=
  let bucket := details.bucket_name.getD ""
  if bucket == "" then
    (createErrorResult "No bucket name found in details"
      "Missing bucket_name", [])
  else
    let delEff := Effect.deleteBucketPolicy bucket
    match env.callError delEff with
    | some code =>
        if code == "NoSuchBucketPolicy" then
          let aclEff := Effect.putBucketAcl bucket "private"
          (createSuccessResult
            ("Successfully revoked bucket permissions for " ++ bucket)
            { bucket_name := some bucket } "revoke_bucket_permissions",
           [delEff, aclEff])
        else
          (createErrorResult "AWS error revoking bucket permissions" code,
           [delEff])
    | none =>
        let aclEff := Effect.putBucketAcl bucket "private"
        (createSuccessResult
          ("Successfully revoked bucket permissions for " ++ bucket)
          { bucket_name := some bucket } "revoke_bucket_permissions",
         [delEff, aclEff])

/-- `RevokeAccessRemediator.remediate`: dry-run short-circuit first, then
dispatch on the detector name; a `None` detector name makes the substring
test raise `TypeError`, and any uncaught exception becomes the
`Failed to revoke access` error result. -/
def remediate (cfg : RemediationConfig) (env : AwsEnv)
    (d : DetectionResult) : RemediationResult × List Effect :=
  if cfg.dryRun then
    (createSuccessResult "Dry run - no action taken"
      { dry_run := true, detection := some d.details } "dry_run", [])
  else
    match d.detector_name with
    | none =>
        (createErrorResult "Failed to revoke access"
          "argument of type NoneType is not iterable", [])
    | some name =>
        if containsStr name "AdminGrant" then
          revokeIamPermissions env d.details
        else if containsStr name "CrossAccount" then
          match revokeAssumedRole env d.details with
          | .ok res => res
          | .error e => (createErrorResult "Failed to revoke access" e, [])
        else if containsStr name "PublicBucket" then
          revokeBucketPermissions env d.details
        else
          (createErrorResult ("Unknown detector type: " ++ name)
            "Unsupported detector type", [])

end RevokeAccess

namespace BlockPublic

/-- Wildcard-principal scan of the current bucket policy (`has_public_access`
loop): a non-`'*'` string principal raises `AttributeError` (uncaught by the
`ClientError` handler, modelled as `.error`). -/
def policyHasPublicAccess (stmts : List Statement) : Except Unit Bool :=
  stmts.foldlM
    (fun acc st =>
      match principalWildcard st.principal with
      | .error _ => Except.error ()
      | .ok b => Except.ok (acc || b))
    false

/-- `_block_bucket_public_access`: step (a) enabling the four public-access
block flags is required; policy removal, ACL reset and website removal are
best-effort (their `ClientError`s are only logged). -/
def blockBucketPublicAccess (env : AwsEnv) (bucket : String) :
    RemediationResult × List Effect :=
  let pabEff := Effect.putPublicAccessBlock bucket
  match env.callError pabEff with
  | some code =>
      (createErrorResult
        ("AWS error blocking public access on bucket " ++ bucket) code
        { bucket_name := some bucket }, [pabEff])
  | none =>
      let policyOutcome := env.getBucketPolicyResult bucket
      let policyStep :
          Except String (List String × List Effect) :=
        match policyOutcome with
        | .error _code => Except.ok ([], [])
        | .ok .malformed =>
            Except.error "policy document failed to parse"
        | .ok (.doc stmts) =>
            match policyHasPublicAccess stmts with
            | .error _ =>
                Except.error "str has no attribute get"
            | .ok true =>
                let delEff := Effect.deleteBucketPolicy bucket
                match env.callError delEff with
                | some _ => Except.ok ([], [delEff])
                | none =>
                    Except.ok (["Removed public bucket policy"], [delEff])
            | .ok false => Except.ok ([], [])
      match policyStep with
      | .error e =>
          (createErrorResult
            ("Unexpected error blocking public access on bucket " ++ bucket)
            e { bucket_name := some bucket }, [pabEff])
      | .ok (policyActions, policyEffs) =>
          let aclEff := Effect.putBucketAcl bucket "private"
          let aclActions :=
            match env.callError aclEff with
            | some _ => []
            | none => ["Set bucket ACL to private"]
          let webEff := Effect.deleteBucketWebsite bucket
          let webActions :=
            match env.callError webEff with
            | some _ => []
            | none => ["Disabled static website hosting"]
          (createSuccessResult
            ("Successfully blocked public access on bucket " ++ bucket)
            { bucket_name := some bucket,
              actions_taken :=
                ["Enabled Block Public Access (all settings)"] ++
                policyActions ++ aclActions ++ webActions }
            "block_public_access",
           [pabEff] ++ policyEffs ++ [aclEff, webEff])

/-- `BlockPublicRemediator.remediate`: the bucket-name check precedes the
dry-run short-circuit. -/
def remediate (cfg : RemediationConfig) (env : AwsEnv)
    (d : DetectionResult) : RemediationResult × List Effect :=
  let bucket := d.details.bucket_name.getD ""
  if bucket == "" then
    (createErrorResult "No bucket name found in detection details"
      "Missing bucket_name", [])
  else if cfg.dryRun then
    (createSuccessResult "Dry run - no action taken"
      { dry_run := true, bucket_name := some bucket } "dry_run", [])
  else blockBucketPublicAccess env bucket

end BlockPublic

namespace AlertTeam

/-- Channel configuration read at construction (`SLACK_WEBHOOK_URL`,
`TEAMS_WEBHOOK_URL`, `ALERT_EMAIL`); there is no dry-run flag. -/
structure Config where
  slackWebhook : Option String := none
  teamsWebhook : Option String := none
  alertEmail : Option String := none
deriving DecidableEq, Repr

/-- Channel-send outcomes: `some msg` models the send raising with that
message. The email channel is a logging placeholder and cannot raise. -/
structure Env where
  slackSendError : Option String := none
  teamsSendError : Option String := none
deriving DecidableEq, Repr

/-- `AlertTeamRemediator.remediate`: fans out to each configured channel,
isolating failures; success iff at least one channel was recorded as sent;
no dry-run handling exists in this remediator. The email placeholder only
logs, so it contributes no external effect. -/
def remediate (cfg : Config) (env : Env) (d : DetectionResult) :
    RemediationResult × List Effect :=
  let _ := d
  let slackAttempted := truthy cfg.slackWebhook
  let teamsAttempted := truthy cfg.teamsWebhook
  let emailAttempted := truthy cfg.alertEmail
  let alertsSent :=
    (if slackAttempted && env.slackSendError == none then ["slack"]
     else []) ++
    (if teamsAttempted && env.teamsSendError == none then ["teams"]
     else []) ++
    (if emailAttempted then ["email"] else [])
  let errors :=
    (match env.slackSendError with
     | some e => if slackAttempted then ["Slack: " ++ e] else []
     | none => []) ++
    (match env.teamsSendError with
     | some e => if teamsAttempted then ["Teams: " ++ e] else []
     | none => [])
  let effects :=
    (if slackAttempted then [Effect.sendSlackWebhook] else []) ++
    (if teamsAttempted then [Effect.sendTeamsWebhook] else [])
  if !alertsSent.isEmpty then
    (createSuccessResult
      ("Alerts sent via " ++ String.intercalate ", " alertsSent)
      { channels := alertsSent, errors := errors } "send_alerts", effects)
  else
    (createErrorResult "No alert channels configured or all alerts failed"
      (if !errors.isEmpty then String.intercalate "; " errors
       else "No channels configured")
      { errors := errors }, effects)

end AlertTeam

/-- A sample admin-grant detection result (details carry no bucket name). -/
def sampleAdminDetection : DetectionResult :=
  { is_threat := true, risk_score := 85, severity := .critical,
    details :=
      { event_name := some "AttachUserPolicy",
        request_parameters :=
          some { userName := some "bob",
                 policyArn :=
                   some "arn:aws:iam::aws:policy/AdministratorAccess" } },
    recommended_actions := ["revoke_access", "alert_team"],
    auto_remediate := true,
    detector_name := some "AdminGrantDetector" }

/-- C4 counterexample: with the global dry-run flag set,
`AlertTeamRemediator.remediate` (which has no dry-run handling) on a
channel-less configuration returns `success = false` with no
`action_taken = "dry_run"`, and `BlockPublicRemediator.remediate` on a
detection without a bucket name returns the `Missing bucket_name` error
rather than the dry-run success. -/
theorem c4_counterexample :
    ((AlertTeam.remediate {} {} sampleAdminDetection).1.success = false ∧
     (AlertTeam.remediate {} {} sampleAdminDetection).1.action_taken ≠
       some "dry_run") ∧
    ((BlockPublic.remediate { dryRun := true } {}
        sampleAdminDetection).1.success = false ∧
     (BlockPublic.remediate { dryRun := true } {}
        sampleAdminDetection).1.error = some "Missing bucket_name") := by
  refine ⟨⟨?_, ?_⟩, ?_, ?_⟩ <;>
    simp [AlertTeam.remediate, BlockPublic.remediate, truthy,
          createErrorResult, sampleAdminDetection]

/-- C4 amended: with dry-run set, `RevokeAccessRemediator.remediate` returns
the dry-run success with no external call for every input, and
`BlockPublicRemediator.remediate` does so for every input whose details
carry a non-empty bucket name (a missing bucket name errors first);
`AlertTeamRemediator` has no dry-run handling and never reports
`action_taken = "dry_run"`. -/
theorem c4_amended (env : AwsEnv) (d : DetectionResult) :
    ((RevokeAccess.remediate { dryRun := true } env d).1.success = true ∧
     (RevokeAccess.remediate { dryRun := true } env d).1.action_taken =
       some "dry_run" ∧
     (RevokeAccess.remediate { dryRun := true } env d).2 = []) ∧
    (∀ b, d.details.bucket_name = some b → ¬(b = "") →
      (BlockPublic.remediate { dryRun := true } env d).1.success = true ∧
      (BlockPublic.remediate { dryRun := true } env d).1.action_taken =
        some "dry_run" ∧
      (BlockPublic.remediate { dryRun := true } env d).2 = []) ∧
    (∀ (acfg : AlertTeam.Config) (aenv : AlertTeam.Env),
      (AlertTeam.remediate acfg aenv d).1.action_taken ≠ some "dry_run") := by
  refine ⟨⟨?_, ?_, ?_⟩, ?_, ?_⟩
  · simp [RevokeAccess.remediate, createSuccessResult]
  · simp [RevokeAccess.remediate, createSuccessResult]
  · simp [RevokeAccess.remediate]
  · intro b hb hne
    refine ⟨?_, ?_, ?_⟩ <;>
      simp [BlockPublic.remediate, hb, hne, createSuccessResult]
  · intro acfg aenv
    have h : (AlertTeam.remediate acfg aenv d).1.action_taken =
        some "send_alerts" ∨
        (AlertTeam.remediate acfg aenv d).1.action_taken = none := by
      simp only [AlertTeam.remediate]
      repeat' split
      all_goals first
        | (left; rfl)
        | (right; rfl)
    rcases h with h | h <;> simp [h]

/-- Witness for `c4_amended` at the sample detection with a bucket-carrying
public-bucket detection. -/
theorem c4_amended_witness :
    (RevokeAccess.remediate { dryRun := true } {}
        sampleAdminDetection).1.action_taken = some "dry_run" ∧
    (BlockPublic.remediate { dryRun := true } {}
        { sampleAdminDetection with
            details := { bucket_name := some "data-x" } }).1.action_taken =
      some "dry_run" ∧
    (AlertTeam.remediate { slackWebhook := some "https://hooks.example/x" }
        {} sampleAdminDetection).1.action_taken ≠ some "dry_run" := by
  refine ⟨(c4_amended {} sampleAdminDetection).1.2.1, ?_, ?_⟩
  · exact ((c4_amended {}
      { sampleAdminDetection with
          details := { bucket_name := some "data-x" } }).2.1
      "data-x" rfl (by decide)).2.1
  · exact (c4_amended {} sampleAdminDetection).2.2
      { slackWebhook := some "https://hooks.example/x" } {}

/-- C7: for every cross-account finding with dry-run off and the assumed
role present in the details, `RevokeAccessRemediator.remediate` does NOT
attach the deny policy: `int(os.time.time())` raises `AttributeError`
(`os` has no attribute `time`), no AWS call is issued, and the outer
handler returns the `Failed to revoke access` error result. -/
theorem c7_revoke_assumed_role_bug (env : AwsEnv) (d : DetectionResult)
    (name : String)
    (hname : d.detector_name = some name)
    (hag : containsStr name "AdminGrant" = false)
    (hca : containsStr name "CrossAccount" = true)
    (hrole : truthy d.details.assumed_role = true) :
    (RevokeAccess.remediate { dryRun := false } env d).1.success = false ∧
    (RevokeAccess.remediate { dryRun := false } env d).1.message =
      "Failed to revoke access" ∧
    (RevokeAccess.remediate { dryRun := false } env d).2 = [] := by
  have hrole' : ¬(d.details.assumed_role.getD "" == "") = true := by
    rcases h : d.details.assumed_role with _ | r
    · rw [h] at hrole
      simp [truthy] at hrole
    · rw [h] at hrole
      simp [truthy] at hrole
      simp [hrole]
  refine ⟨?_, ?_, ?_⟩ <;>
    simp [RevokeAccess.remediate, hname, hag, hca,
          RevokeAccess.revokeAssumedRole, hrole', createErrorResult]

/-- Witness for `c7_revoke_assumed_role_bug` at a concrete cross-account
finding. -/
theorem c7_revoke_assumed_role_bug_witness :
    (RevokeAccess.remediate { dryRun := false } {}
        { is_threat := true, risk_score := 85, severity := .critical,
          details :=
            { assumed_role :=
                some "arn:aws:iam::123456789012:role/Victim" },
          recommended_actions := ["revoke_access"],
          detector_name := some "CrossAccountDetector" }).1.success =
      false := by
  exact (c7_revoke_assumed_role_bug {}
    { is_threat := true, risk_score := 85, severity := .critical,
      details :=
        { assumed_role := some "arn:aws:iam::123456789012:role/Victim" },
      recommended_actions := ["revoke_access"],
      detector_name := some "CrossAccountDetector" }
    "CrossAccountDetector" rfl (by decide) (by decide) (by decide)).1

/-! ## EventProcessor orchestration (main.py) -/

namespace Orchestrator

/-- A remediator as the dispatcher sees it: returns a result or raises
(`.error`, caught per action by `_execute_remediation`). -/
abbrev Remediator := DetectionResult → Except String RemediationResult

/-- The name → remediator registry built by `_initialize_remediators`. -/
abbrev Registry := List (String × Remediator)

/-- One entry of `remediation_results['actions_taken']`. -/
structure ActionRecord where
  action : String
  success : Bool
  message : String
  details : RemediationDetails
deriving DecidableEq, Repr

/-- The dict `_execute_remediation` returns. -/
structure ExecRemResult where
  actions_taken : List ActionRecord := []
  success : Bool := true
  errors : List String := []
deriving DecidableEq, Repr

/-- `_execute_remediation`'s loop over the action names: a missing
registration is skipped; a returned failure flips `success` and records the
message; a raised exception flips `success` and records the text, with no
`actions_taken` entry (the append is never reached). -/
def execRemGo (remediators : Registry) (d : DetectionResult) :
    List String → ExecRemResult
  | [] => {}
  | a :: rest =>
      let tail := execRemGo remediators d rest
      match remediators.lookup a with
      | none => tail
      | some r =>
          match r d with
          | .ok res =>
              { actions_taken :=
                  ⟨a, res.success, res.message, res.details⟩ ::
                    tail.actions_taken,
                success := res.success && tail.success,
                errors :=
                  (if res.success then [] else [res.message]) ++ tail.errors }
          | .error e =>
              { actions_taken := tail.actions_taken,
                success := false && tail.success,
                errors := e :: tail.errors }

/-- `EventProcessor._execute_remediation`. -/
def executeRemediation (remediators : Registry) (d : DetectionResult) :
    ExecRemResult :=
  execRemGo remediators d d.recommended_actions

/-- The attempt outcome of one action name: `none` when unregistered,
otherwise whether the remediator returned success. -/
def attemptOk (remediators : Registry) (d : DetectionResult)
    (a : String) : Bool :=
  match remediators.lookup a with
  | none => true
  | some r =>
      match r d with
      | .ok res => res.success
      | .error _ => false

/-- The `actions_taken` record one action name contributes, if any. -/
def attemptRecord (remediators : Registry) (d : DetectionResult)
    (a : String) : Option ActionRecord :=
  (remediators.lookup a).bind fun r =>
    match r d with
    | .ok res => some ⟨a, res.success, res.message, res.details⟩
    | .error _ => none

theorem execRemGo_spec (remediators : Registry) (d : DetectionResult)
    (actions : List String) :
    (execRemGo remediators d actions).success =
      actions.all (attemptOk remediators d) ∧
    (execRemGo remediators d actions).actions_taken =
      actions.filterMap (attemptRecord remediators d) := by
  induction actions with
  | nil => simp [execRemGo]
  | cons a rest ih =>
      simp only [execRemGo, List.all_cons, List.filterMap_cons]
      rcases hl : remediators.lookup a with _ | r
      · simpa [attemptOk, attemptRecord, hl] using ih
      · rcases hr : r d with res | e
        · simp [attemptOk, attemptRecord, hl, hr, ih.1, ih.2]
        · simp [attemptOk, attemptRecord, hl, hr, ih.1, ih.2]

/-- C8: the dispatcher iterates `recommended_actions` in list order; a name
with no registered remediator is skipped without failing the aggregate; a
failing or throwing remediator flips `success` while later actions are
still attempted; overall `success` is the conjunction over all attempted
actions. (The `actions_taken` equation demonstrates order and
continuation-past-failure; the `all` equation is the conjunction.) -/
theorem c8_dispatcher_spec (remediators : Registry) (d : DetectionResult) :
    ((executeRemediation remediators d).success = true ↔
      ∀ a ∈ d.recommended_actions, attemptOk remediators d a = true) ∧
    (executeRemediation remediators d).actions_taken =
      d.recommended_actions.filterMap (attemptRecord remediators d) := by
  have h := execRemGo_spec remediators d d.recommended_actions
  refine ⟨?_, h.2⟩
  rw [executeRemediation, h.1]
  exact List.all_eq_true

/-- Per-detector enable flags (`ENABLE_*_DETECTION`, default `'true'`). -/
structure DetectorFlags where
  enablePublicBucket : Bool := true
  enableAdminGrant : Bool := true
  enablePolicyChange : Bool := true
  enableCrossAccount : Bool := true
deriving DecidableEq, Repr

/-- The detector classes the codebase defines. -/
inductive DetectorKind where
  | publicBucket
  | adminGrant
  | policyChange
  | crossAccount
  | machineIdentity
deriving DecidableEq, Repr

/-- `detector.__class__.__name__`. -/
def detectorName : DetectorKind → String
  | .publicBucket => "PublicBucketDetector"
  | .adminGrant => "AdminGrantDetector"
  | .policyChange => "PolicyChangeDetector"
  | .crossAccount => "CrossAccountDetector"
  | .machineIdentity => "MachineIdentityDetector"

/-- `EventProcessor._initialize_detectors` (main.py lines 123-139): only the
four imported detectors are conditionally appended, in this order. -/
def initDetectors (flags : DetectorFlags) : List DetectorKind :=
  (if flags.enablePublicBucket then [.publicBucket] else []) ++
  (if flags.enableAdminGrant then [.adminGrant] else []) ++
  (if flags.enablePolicyChange then [.policyChange] else []) ++
  (if flags.enableCrossAccount then [.crossAccount] else [])

/-- The collaborator result consumed from the anomaly analyzer (a black box
from this core's point of view). -/
structure MLResult where
  is_anomaly : Bool := false
  anomaly_score : ℚ := 0
deriving DecidableEq, Repr

/-- Configuration and collaborators of one `EventProcessor`. -/
structure PipelineEnv where
  adminCfg : AdminGrant.Config := {}
  crossCfg : CrossAccount.Config := {}
  miCfg : MachineIdentity.Config := {}
  ml : Event → MLResult := fun _ => {}
  autoRemediation : Bool := true
  remediators : Registry := []

/-- `detector.detect(event)` for each detector class. -/
def runDetector (env : PipelineEnv) : DetectorKind → Event → DetectionResult
  | .publicBucket => PublicBucket.detect
  | .adminGrant => AdminGrant.detect env.adminCfg
  | .policyChange => PolicyChange.detect
  | .crossAccount => CrossAccount.detect env.crossCfg
  | .machineIdentity => MachineIdentity.detect env.miCfg

/-- `EventProcessor._initialize_remediators`: the three fixed registrations
(effects are dropped at this boundary; embedded remediators never raise,
matching their fail-open contract). -/
def initRemediators (rcfg : RemediationConfig) (aws : AwsEnv)
    (acfg : AlertTeam.Config) (aenv : AlertTeam.Env) : Registry :=
  [("revoke_access", fun d => Except.ok (RevokeAccess.remediate rcfg aws d).1),
   ("block_public", fun d => Except.ok (BlockPublic.remediate rcfg aws d).1),
   ("alert_team", fun d => Except.ok (AlertTeam.remediate acfg aenv d).1)]

/-- One entry of `results['detections']`. -/
structure DetectionEntry where
  detector : String
  risk_score : ℚ
  severity : Severity
  details : Details
  recommended_actions : List String
deriving DecidableEq, Repr

/-- The aggregated result `process_event` returns (`event_id` and the wall
clock timestamp are opaque strings, not modelled). -/
structure ProcessResults where
  event_name : String := ""
  detections : List DetectionEntry := []
  remediations : List ExecRemResult := []
  ml_analysis : Option MLResult := none
deriving Repr

/-- Observable steps of one `process_event` invocation, in order: each
detector's `detect` call, each remediator invocation the dispatcher makes,
the single anomaly-analyzer call, and the publish. -/
inductive Step where
  | detect (name : String)
  | remediateAction (action : String)
  | mlAnalyze
  | publish
deriving DecidableEq, Repr

def Step.isDetect : Step → Bool
  | .detect _ => true
  | _ => false

def Step.isRemediate : Step → Bool
  | .remediateAction _ => true
  | _ => false

/-- The loop body for one detector: its detection step, the detection entry
when it is a threat, and — immediately, inside the loop — the remediation
dispatch when auto-remediation applies. -/
def detectorPass (env : PipelineEnv) (e : Event) (k : DetectorKind) :
    List DetectionEntry × List ExecRemResult × List Step :=
  let r := runDetector env k e
  if r.is_threat then
    let entry : DetectionEntry :=
      { detector := detectorName k, risk_score := r.risk_score,
        severity := r.severity, details := r.details,
        recommended_actions := r.recommended_actions }
    if env.autoRemediation && r.auto_remediate then
      let rem := executeRemediation env.remediators r
      let remSteps := r.recommended_actions.filterMap fun a =>
        if (env.remediators.lookup a).isSome then
          some (Step.remediateAction a)
        else none
      ([entry], [rem], Step.detect (detectorName k) :: remSteps)
    else ([entry], [], [Step.detect (detectorName k)])
  else ([], [], [Step.detect (detectorName k)])

/-- `EventProcessor.process_event` (main.py lines 149-241): the detector
loop (dispatching remediations inline), then the single anomaly-analyzer
call, then the publish when a detection or an anomaly occurred. The
SailPoint correlation is disabled (`sailpoint_connector is None`), and the
per-detector defensive exception skip is unreachable because every embedded
detector is total (fail-open). -/
def processEvent (env : PipelineEnv) (detectors : List DetectorKind)
    (e : Event) : ProcessResults × List Step :=
  let passes := detectors.map (detectorPass env e)
  let detections := (passes.map (fun p => p.1)).flatten
  let remediations := (passes.map (fun p => p.2.1)).flatten
  let detSteps := (passes.map (fun p => p.2.2)).flatten
  let mlResult := env.ml e
  let results : ProcessResults :=
    { event_name := e.eventName, detections := detections,
      remediations := remediations, ml_analysis := some mlResult }
  let publishSteps :=
    if !detections.isEmpty || mlResult.is_anomaly then [Step.publish]
    else []
  (results, detSteps ++ [Step.mlAnalyze] ++ publishSteps)

/-- Every step of one detector's loop pass is a detect or a remediation
dispatch. -/
theorem detectorPass_steps (env : PipelineEnv) (e : Event) (k : DetectorKind) :
    ∀ s ∈ (detectorPass env e k).2.2,
      s.isDetect = true ∨ s.isRemediate = true := by
  intro s hs
  simp only [detectorPass] at hs
  split at hs
  · split at hs
    · rcases List.mem_cons.mp hs with h | h
      · left
        rw [h]
        rfl
      · right
        rcases List.mem_filterMap.mp h with ⟨a, _, hif⟩
        split at hif
        · cases hif
          rfl
        · cases hif
    · rcases List.mem_cons.mp hs with h | h
      · left
        rw [h]
        rfl
      · cases h
  · rcases List.mem_cons.mp hs with h | h
    · left
      rw [h]
      rfl
    · cases h

end Orchestrator

/-- The processing order C3 asserts: every detector step precedes the
anomaly check, the anomaly check happens exactly once, and every
remediation dispatch happens only after it. -/
def claimedOrder (t : List Orchestrator.Step) : Prop :=
  (∀ i j, (∃ n, t.get? i = some (Orchestrator.Step.detect n)) →
    t.get? j = some Orchestrator.Step.mlAnalyze → i < j) ∧
  t.count Orchestrator.Step.mlAnalyze = 1 ∧
  (∀ i j, (∃ a, t.get? i = some (Orchestrator.Step.remediateAction a)) →
    t.get? j = some Orchestrator.Step.mlAnalyze → j < i)

/-- A `DeleteBucketPublicAccessBlock` event on the non-sensitive bucket
`data-x`: detection scores 90, so it is auto-remediated. -/
def delBlockCleanBucketEvent : Event :=
  { eventName := "DeleteBucketPublicAccessBlock",
    requestParameters := { bucketName := some "data-x" } }

/-- A processor with the standard remediator registry (in dry-run so the
remediators are pure) and auto-remediation on. -/
def dryRunPipelineEnv : Orchestrator.PipelineEnv :=
  { remediators :=
      Orchestrator.initRemediators { dryRun := true } {} {} {} }

/-- Full detection result of the public-bucket detector on the clean-bucket
`DeleteBucketPublicAccessBlock` event. -/
theorem publicBucket_detect_delBlockClean :
    PublicBucket.detect delBlockCleanBucketEvent =
      { is_threat := true, risk_score := 90, severity := .critical,
        details := { bucket_name := some "data-x",
                     event_name := some "DeleteBucketPublicAccessBlock",
                     risk_factors :=
                       some [("public_access_block_removed", 90)] },
        recommended_actions := ["revoke_access", "block_public", "alert_team"],
        auto_remediate := true,
        detector_name := some "PublicBucketDetector" } := by
  have hfac : PublicBucket.analyzeBucket "data-x" delBlockCleanBucketEvent =
      [("public_access_block_removed", 90)] := by decide
  have hbn : PublicBucket.extractBucketName delBlockCleanBucketEvent =
      some "data-x" := by decide
  have hscore :=
    calculateRiskScore_singleton "public_access_block_removed" 90
      (by norm_num)
  simp [PublicBucket.detect, hbn, truthy, hfac, hscore, determineSeverity]
  norm_num [delBlockCleanBucketEvent, PublicBucket.dangerousActions]

/-- Trace of processing the clean-bucket event with the public-bucket
detector alone: the remediation dispatches sit inside the detector loop,
before the anomaly step. -/
theorem processEvent_delBlockClean_trace :
    (Orchestrator.processEvent dryRunPipelineEnv
        [.publicBucket] delBlockCleanBucketEvent).2 =
      [Orchestrator.Step.detect "PublicBucketDetector",
       Orchestrator.Step.remediateAction "revoke_access",
       Orchestrator.Step.remediateAction "block_public",
       Orchestrator.Step.remediateAction "alert_team",
       Orchestrator.Step.mlAnalyze, Orchestrator.Step.publish] := by
  simp [Orchestrator.processEvent, Orchestrator.detectorPass,
        Orchestrator.runDetector, publicBucket_detect_delBlockClean,
        Orchestrator.detectorName, Orchestrator.initRemediators,
        dryRunPipelineEnv, List.lookup]

/-- C3 counterexample: processing the auto-remediated
`DeleteBucketPublicAccessBlock` event dispatches all three remediations at
trace positions 1-3, before the anomaly check at position 4 — the
remediations happen inside the detector loop, not after the anomaly
check. -/
theorem c3_counterexample :
    (Orchestrator.processEvent dryRunPipelineEnv
        [.publicBucket] delBlockCleanBucketEvent).2 =
      [Orchestrator.Step.detect "PublicBucketDetector",
       Orchestrator.Step.remediateAction "revoke_access",
       Orchestrator.Step.remediateAction "block_public",
       Orchestrator.Step.remediateAction "alert_team",
       Orchestrator.Step.mlAnalyze, Orchestrator.Step.publish] ∧
    ¬ claimedOrder (Orchestrator.processEvent dryRunPipelineEnv
        [.publicBucket] delBlockCleanBucketEvent).2 := by
  have htrace := processEvent_delBlockClean_trace
  refine ⟨htrace, ?_⟩
  rintro ⟨-, -, h3⟩
  have h := h3 1 4 ⟨"revoke_access", by rw [htrace]; rfl⟩
    (by rw [htrace]; rfl)
  omega

/-- C3 amended: one `process_event` invocation runs the detector loop —
each detector's `detect`, with any auto-remediation dispatched immediately
inside the loop — then performs the anomaly check exactly once, and only
then publishes: the trace is detector/remediation steps, a single
`mlAnalyze`, then at most a publish. Remediations precede the anomaly
check, not follow it. -/
theorem c3_amended (env : Orchestrator.PipelineEnv)
    (detectors : List Orchestrator.DetectorKind) (e : Event) :
    ∃ pre post,
      (Orchestrator.processEvent env detectors e).2 =
        pre ++ [Orchestrator.Step.mlAnalyze] ++ post ∧
      (∀ s ∈ pre, s.isDetect = true ∨ s.isRemediate = true) ∧
      (∀ s ∈ post, s = Orchestrator.Step.publish) ∧
      (Orchestrator.processEvent env detectors e).2.count
        Orchestrator.Step.mlAnalyze = 1 := by
  have hpre : ∀ s ∈ ((detectors.map (Orchestrator.detectorPass env e)).map
      (fun p => p.2.2)).flatten,
      s.isDetect = true ∨ s.isRemediate = true := by
    intro s hs
    rcases List.mem_flatten.mp hs with ⟨l, hl, hsl⟩
    rcases List.mem_map.mp hl with ⟨p, hp, rfl⟩
    rcases List.mem_map.mp hp with ⟨k, _, rfl⟩
    exact Orchestrator.detectorPass_steps env e k s hsl
  have htr : (Orchestrator.processEvent env detectors e).2 =
      ((detectors.map (Orchestrator.detectorPass env e)).map
        (fun p => p.2.2)).flatten ++
      [Orchestrator.Step.mlAnalyze] ++
      (if !((((detectors.map (Orchestrator.detectorPass env e)).map
          (fun p => p.1)).flatten).isEmpty) || (env.ml e).is_anomaly
       then [Orchestrator.Step.publish] else []) := rfl
  have hpost : ∀ s ∈ (if !((((detectors.map
      (Orchestrator.detectorPass env e)).map
      (fun p => p.1)).flatten).isEmpty) || (env.ml e).is_anomaly
      then [Orchestrator.Step.publish] else []),
      s = Orchestrator.Step.publish := by
    intro s hs
    split at hs
    · simpa using hs
    · cases hs
  have hcount : (Orchestrator.processEvent env detectors e).2.count
      Orchestrator.Step.mlAnalyze = 1 := by
    rw [htr, List.count_append, List.count_append]
    have h1 : (((detectors.map (Orchestrator.detectorPass env e)).map
        (fun p => p.2.2)).flatten).count Orchestrator.Step.mlAnalyze = 0 := by
      rw [List.count_eq_zero]
      intro hmem
      rcases hpre _ hmem with h | h <;>
        simp [Orchestrator.Step.isDetect, Orchestrator.Step.isRemediate] at h
    have h2 : (if !((((detectors.map (Orchestrator.detectorPass env e)).map
        (fun p => p.1)).flatten).isEmpty) || (env.ml e).is_anomaly
        then [Orchestrator.Step.publish] else []).count
        Orchestrator.Step.mlAnalyze = 0 := by
      split <;> simp
    rw [h1, h2]
    simp
  exact ⟨_, _, htr, hpre, hpost, hcount⟩

/-- Witness for `c3_amended` at the concrete auto-remediated scenario. -/
theorem c3_amended_witness :
    (Orchestrator.processEvent dryRunPipelineEnv
        [.publicBucket] delBlockCleanBucketEvent).2.count
      Orchestrator.Step.mlAnalyze = 1 := by
  obtain ⟨_, _, _, _, _, hc⟩ :=
    c3_amended dryRunPipelineEnv [.publicBucket] delBlockCleanBucketEvent
  exact hc

/-- The standard registry with default configurations. -/
def defaultRegistry : Orchestrator.Registry :=
  Orchestrator.initRemediators {} {} {} {}

/-- A detection recommending an unregistered action before `alert_team`. -/
def unknownActionDetection : DetectionResult :=
  { sampleAdminDetection with
      recommended_actions := ["unregistered_action", "alert_team"] }

/-- Witness for `c8_dispatcher_spec` at the spec's own example: an
unregistered action followed by `alert_team` skips the unknown name and
still attempts `alert_team` (here failing with no channels configured), so
the aggregate fails only because of the attempted action. -/
theorem c8_dispatcher_spec_witness :
    (Orchestrator.executeRemediation defaultRegistry
        unknownActionDetection).actions_taken.map
      (fun r => (r.action, r.success)) = [("alert_team", false)] := by
  have h := (Orchestrator.c8_dispatcher_spec defaultRegistry
    unknownActionDetection).2
  rw [h]
  simp [Orchestrator.attemptRecord, defaultRegistry,
        Orchestrator.initRemediators, unknownActionDetection,
        sampleAdminDetection, List.lookup, AlertTeam.remediate, truthy,
        createErrorResult]

/-- Each detection entry a loop pass emits is attributed to that pass's
detector. -/
theorem detectorPass_detections (env : Orchestrator.PipelineEnv) (e : Event)
    (k : Orchestrator.DetectorKind) :
    ∀ entry ∈ (Orchestrator.detectorPass env e k).1,
      entry.detector = Orchestrator.detectorName k := by
  intro entry h
  simp only [Orchestrator.detectorPass] at h
  split at h
  · split at h <;> (simp at h; rw [h])
  · cases h

/-- C10: under every configuration of the four enable flags, the detector
list built by `_initialize_detectors` contains only the PublicBucket,
AdminGrant, PolicyChange and CrossAccount detectors; MachineIdentityDetector
is never instantiated, and no `process_event` detection is ever attributed
to it. -/
theorem c10_no_machine_identity (flags : Orchestrator.DetectorFlags) :
    (Orchestrator.DetectorKind.machineIdentity ∉
      Orchestrator.initDetectors flags) ∧
    (∀ k ∈ Orchestrator.initDetectors flags,
      k = .publicBucket ∨ k = .adminGrant ∨ k = .policyChange ∨
        k = .crossAccount) ∧
    (∀ (env : Orchestrator.PipelineEnv) (e : Event),
      ∀ entry ∈ (Orchestrator.processEvent env
          (Orchestrator.initDetectors flags) e).1.detections,
        entry.detector ≠ "MachineIdentityDetector") := by
  have hmem : ∀ k ∈ Orchestrator.initDetectors flags,
      k = .publicBucket ∨ k = .adminGrant ∨ k = .policyChange ∨
        k = .crossAccount := by
    intro k hk
    simp only [Orchestrator.initDetectors, List.mem_append] at hk
    rcases hk with ((hk | hk) | hk) | hk <;>
      (split at hk <;> simp at hk) <;> simp [hk]
  refine ⟨?_, hmem, ?_⟩
  · intro hk
    rcases hmem _ hk with h | h | h | h <;> cases h
  · intro env e entry hent
    have hdets : (Orchestrator.processEvent env
        (Orchestrator.initDetectors flags) e).1.detections =
        (((Orchestrator.initDetectors flags).map
          (Orchestrator.detectorPass env e)).map (fun p => p.1)).flatten :=
      rfl
    rw [hdets] at hent
    rcases List.mem_flatten.mp hent with ⟨l, hl, hel⟩
    rcases List.mem_map.mp hl with ⟨p, hp, rfl⟩
    rcases List.mem_map.mp hp with ⟨k, hk, rfl⟩
    rw [detectorPass_detections env e k entry hel]
    rcases hmem _ hk with h | h | h | h <;>
      rw [h] <;> simp [Orchestrator.detectorName]

/-- The detection entry the clean-bucket scenario produces. -/
def pbDetectionEntry : Orchestrator.DetectionEntry :=
  { detector := "PublicBucketDetector", risk_score := 90,
    severity := .critical,
    details := { bucket_name := some "data-x",
                 event_name := some "DeleteBucketPublicAccessBlock",
                 risk_factors := some [("public_access_block_removed", 90)] },
    recommended_actions := ["revoke_access", "block_public", "alert_team"] }

/-- Witness for `c10_no_machine_identity` at the all-enabled flag set and
the clean-bucket scenario. -/
theorem c10_no_machine_identity_witness :
    (Orchestrator.DetectorKind.machineIdentity ∉
      Orchestrator.initDetectors {}) ∧
    pbDetectionEntry.detector ≠ "MachineIdentityDetector" := by
  have hag : AdminGrant.detect {} delBlockCleanBucketEvent =
      zeroResult "AdminGrantDetector"
        { reason := some "Not an admin grant event" } := by decide
  have hpc : PolicyChange.detect delBlockCleanBucketEvent =
      zeroResult "PolicyChangeDetector"
        { reason := some "Not a policy change event" } := by decide
  have hca : CrossAccount.detect {} delBlockCleanBucketEvent =
      zeroResult "CrossAccountDetector"
        { reason := some "Not a cross-account access event" } := by decide
  have hdets : (Orchestrator.processEvent dryRunPipelineEnv
      (Orchestrator.initDetectors {}) delBlockCleanBucketEvent).1.detections =
      [pbDetectionEntry] := by
    simp [Orchestrator.processEvent, Orchestrator.detectorPass,
          Orchestrator.runDetector, Orchestrator.initDetectors,
          Orchestrator.detectorName, publicBucket_detect_delBlockClean,
          hag, hpc, hca, zeroResult, dryRunPipelineEnv,
          Orchestrator.initRemediators, List.lookup, pbDetectionEntry]
  refine ⟨(c10_no_machine_identity {}).1, ?_⟩
  exact (c10_no_machine_identity {}).2.2 dryRunPipelineEnv
    delBlockCleanBucketEvent pbDetectionEntry (by rw [hdets]; simp)

end IamImmune
